import Mathlib

set_option linter.unusedVariables false

/-
  Verification development for the capacities-mcp repository: a shallow
  embedding of its request-normalization, filtering and result-assembly
  core, together with proofs of the specification claims.

  JS strings are modelled as `List Char`; thrown errors as `Except`;
  the remote HTTP API as an oracle record; machine integers as `Nat`.
-/

namespace Capacities

/-- JS strings are modelled as lists of characters. -/
abbrev Str := List Char

/-- Whitespace characters recognised by JS String.prototype.trim
(the common ASCII subset; exotic Unicode whitespace is out of scope). -/
def isJsWs (c : Char) : Bool :=
  c == ' ' || c == '\t' || c == '\n' || c == '\r'

/-- Model of JS String.prototype.trim: strip leading and trailing whitespace. -/
def jsTrim (s : Str) : Str :=
  ((s.dropWhile isJsWs).reverse.dropWhile isJsWs).reverse

/-- Model of JS String.prototype.toLowerCase (character-wise; ASCII). -/
def jsToLower (s : Str) : Str := s.map Char.toLower

/-- JS `<` comparison on strings: lexicographic on code units. -/
def strLt : Str → Str → Bool
  | [], [] => false
  | [], _ :: _ => true
  | _ :: _, [] => false
  | a :: as, b :: bs =>
    if a.toNat < b.toNat then true
    else if b.toNat < a.toNat then false
    else strLt as bs

/-- JS `>` comparison on strings. -/
def strGt (a b : Str) : Bool := strLt b a

/-- JS Array.prototype.join("\n"). -/
def joinNl : List Str → Str
  | [] => []
  | [l] => l
  | l :: ls => l ++ '\n' :: joinNl ls

/-- Decimal rendering of a number, as JS `String(n)` / template interpolation. -/
def natStr (n : Nat) : Str := (Nat.repr n).data

/-- JS `String(n).padStart(2, "0")`. -/
def pad2 (n : Nat) : Str := if n < 10 then '0' :: natStr n else natStr n

/-- Whether `needle` is a prefix of `hay` (JS String.prototype.startsWith). -/
def strStartsWith : Str → Str → Bool
  | _, [] => true
  | [], _ :: _ => false
  | a :: as, b :: bs => a == b && strStartsWith as bs

/-- Whether `needle` occurs as a contiguous substring of `hay`
(JS String.prototype.includes). -/
def strContains : Str → Str → Bool
  | [], needle => needle == []
  | a :: rest, needle => strStartsWith (a :: rest) needle || strContains rest needle

/-- JS truthiness of a string-or-null/undefined value: null, undefined and
the empty string are falsy. -/
def truthy : Option Str → Bool
  | none => false
  | some s => s != []

/- ===================== errors.ts ===================== -/

/-- The closed error taxonomy (`CapacitiesErrorCode` in errors.ts). -/
inductive ErrCode where
  | config_error
  | validation_error
  | network_error
  | api_error
  | rate_limit
  | unsupported
  deriving DecidableEq, Repr

/-- `CapacitiesError` from errors.ts: message, code, optional HTTP status and
a mandatory actionable-guidance string. -/
structure CapacitiesError where
  message : Str
  code : ErrCode
  status : Option Nat := none
  actionableMessage : Str
  deriving DecidableEq, Repr

/-- `createConfigError` from errors.ts. -/
def createConfigError (message : Str) : CapacitiesError :=
  { message
    code := .config_error
    actionableMessage := "Set required environment variables and restart the server.".data }

/-- `createValidationError` from errors.ts. -/
def createValidationError (message : Str) : CapacitiesError :=
  { message
    code := .validation_error
    actionableMessage := "Fix input values and retry.".data }

/-- `createUnsupportedError` from errors.ts. -/
def createUnsupportedError (message : Str) : CapacitiesError :=
  { message
    code := .unsupported
    actionableMessage :=
      "Use a supported Capacities API endpoint documented in https://api.capacities.io/docs.".data }

/-- `createNetworkError` from errors.ts. -/
def createNetworkError (message : Str) : CapacitiesError :=
  { message
    code := .network_error
    actionableMessage :=
      "Check network connectivity and retry. If this persists, verify api.capacities.io reachability.".data }

/-- `createApiError` from errors.ts (with its default actionable message). -/
def createApiError (message : Str) (status : Option Nat := none)
    (actionableMessage : Str :=
      "Retry the request. If it persists, verify the upstream API response.".data) :
    CapacitiesError :=
  { message, code := .api_error, status, actionableMessage }

/-- An HTTP response as consumed by `createHttpError`: status code, a header
lookup (the code reads exactly the `retry-after` and `ratelimit-reset`
headers through `response.headers.get`) and the already-read body text. -/
structure HttpResponse where
  status : Nat
  headers : Str → Option Str
  body : Str

/-- The `statusPrefix` template string built by `createHttpError`. -/
def statusLead (status : Nat) : Str :=
  "Capacities API request failed with status ".data ++ natStr status ++ ".".data

/-- The `responseHint` suffix built by `createHttpError` from the trimmed body. -/
def responseHintOf (response : HttpResponse) : Str :=
  if jsTrim response.body = [] then [] else " Response: ".data ++ jsTrim response.body

/-- `createHttpError` from errors.ts: classify a non-success HTTP response. -/
def createHttpError (response : HttpResponse) : CapacitiesError :=
  let status := response.status
  let statusPfx := statusLead status
  let responseHint := responseHintOf response
  if status = 401 then
    { message := statusPfx ++ " Unauthorized.".data ++ responseHint
      code := .api_error, status := some status
      actionableMessage := "Verify CAPACITIES_API_TOKEN is valid for your Capacities account.".data }
  else if status = 404 then
    { message := statusPfx ++ " Not found.".data ++ responseHint
      code := .api_error, status := some status
      actionableMessage := "Verify endpoint and identifiers (for example space ID) and retry.".data }
  else if status = 429 then
    let retryAfter := response.headers "retry-after".data
    let reset := response.headers "ratelimit-reset".data
    -- JS `retryAfter ? … : reset ? … : …`: a null/absent OR empty header
    -- value is falsy and falls through to the next hint.
    let retryHint :=
      if truthy retryAfter then
        " Retry after ".data ++ retryAfter.getD [] ++ " seconds.".data
      else if truthy reset then
        " Retry when rate limit resets (".data ++ reset.getD [] ++ ").".data
      else " Retry after a short delay.".data
    { message := statusPfx ++ " Rate limit exceeded.".data ++ retryHint ++ responseHint
      code := .rate_limit, status := some status
      actionableMessage :=
        "Back off and retry with lower request frequency. Respect RateLimit headers when present.".data }
  else if status = 503 ∨ status = 555 ∨ 500 ≤ status then
    { message := statusPfx ++ " Server error.".data ++ responseHint
      code := .api_error, status := some status
      actionableMessage :=
        "Retry with exponential backoff. If repeated, treat as temporary upstream outage.".data }
  else if 400 ≤ status then
    { message := statusPfx ++ responseHint
      code := .api_error, status := some status
      actionableMessage :=
        "Check request parameters and payload shape against Capacities API docs, then retry.".data }
  else
    { message := statusPfx ++ responseHint
      code := .api_error, status := some status
      actionableMessage := "Retry the request.".data }

/-- `normalizeCapacitiesError` from errors.ts. In this embedding every thrown
failure is already a `CapacitiesError` (the `instanceof CapacitiesError`
branch), so re-classification returns it unchanged; the `Error` /
unknown-value branches produce network errors and are unreachable here. -/
def normalizeCapacitiesError (error : CapacitiesError) : CapacitiesError := error

/- ===================== config.ts (src/unnamed/part_003) ===================== -/

/-- `CapacitiesConfig` from config.ts. -/
structure CapacitiesConfig where
  baseUrl : Str := "https://api.capacities.io".data
  apiToken : Str
  defaultSpaceId : Option Str := none

/-- An ASCII hexadecimal digit (`[0-9a-fA-F]`, the `/i`-insensitive hex class
of `UUID_PATTERN`). -/
def isHexDigit (c : Char) : Bool :=
  decide ((48 ≤ c.toNat ∧ c.toNat ≤ 57) ∨
          (97 ≤ c.toNat ∧ c.toNat ≤ 102) ∨
          (65 ≤ c.toNat ∧ c.toNat ≤ 70))

/-- The UUID version nibble class `[1-5]` of `UUID_PATTERN`. -/
def isVersionChar (c : Char) : Bool := decide (49 ≤ c.toNat ∧ c.toNat ≤ 53)

/-- The UUID variant nibble class `[89ab]` of `UUID_PATTERN` (case-insensitive). -/
def isVariantChar (c : Char) : Bool :=
  c == '8' || c == '9' || c == 'a' || c == 'b' || c == 'A' || c == 'B'

/-- Consume exactly `n` hex digits from the front of a string, returning the
rest; `none` when a non-hex character or the end is hit first. -/
def takeHex : Nat → Str → Option Str
  | 0, rest => some rest
  | _ + 1, [] => none
  | n + 1, c :: rest => if isHexDigit c then takeHex n rest else none

/-- `isUuid` from config.ts: full-string match of `UUID_PATTERN`, i.e.
8-4-4-4-12 hex groups, version nibble `[1-5]`, variant nibble `[89ab]`,
case-insensitive. -/
def isUuid (s : Str) : Bool :=
  match takeHex 8 s with
  | some ('-' :: r1) =>
    match takeHex 4 r1 with
    | some ('-' :: r2) =>
      match r2 with
      | v :: r2' =>
        if isVersionChar v then
          match takeHex 3 r2' with
          | some ('-' :: r3) =>
            match r3 with
            | w :: r3' =>
              if isVariantChar w then
                match takeHex 3 r3' with
                | some ('-' :: r4) => takeHex 12 r4 == some []
                | _ => false
              else false
            | _ => false
          | _ => false
        else false
      | _ => false
    | _ => false
  | _ => false

/-- The `config_error` message of `resolveSpaceId`. -/
def missingSpaceIdMsg : Str :=
  "Missing space ID. Provide a space ID in the request or set CAPACITIES_SPACE_ID.".data

/-- The `validation_error` message of `resolveSpaceId` for a non-UUID candidate. -/
def spaceIdNotUuidMsg (candidate : Str) : Str :=
  "Space ID must be a UUID. Received: \"".data ++ candidate ++ "\".".data

/-- `resolveSpaceId` from config.ts: the trimmed explicit value wins when
non-empty (JS `explicitSpaceId?.trim() || config.defaultSpaceId`), otherwise
the configured default; a missing or empty candidate is a `config_error`, a
non-UUID candidate a `validation_error`. -/
def resolveSpaceId (explicitSpaceId : Option Str) (config : CapacitiesConfig) :
    Except CapacitiesError Str :=
  let candidate : Option Str :=
    match explicitSpaceId with
    | some e => if jsTrim e = [] then config.defaultSpaceId else some (jsTrim e)
    | none => config.defaultSpaceId
  match candidate with
  | none => .error (createConfigError missingSpaceIdMsg)
  | some c =>
    if c = [] then .error (createConfigError missingSpaceIdMsg)
    else if isUuid c then .ok c
    else .error (createValidationError (spaceIdNotUuidMsg c))

/- ===================== date.ts ===================== -/

/-- A calendar date as year/month/day components (the projection of a JS
`Date` through getFullYear/getMonth/getDate in some fixed timezone). -/
structure LocalDate where
  year : Nat
  month : Nat
  day : Nat
  deriving DecidableEq, Repr

/-- Gregorian leap-year rule (as used by the JS Date object). -/
def isLeapYear (y : Nat) : Bool :=
  (y % 4 == 0 && y % 100 != 0) || y % 400 == 0

/-- Number of days in a month of a given year. -/
def daysInMonth (y m : Nat) : Nat :=
  if m = 2 then (if isLeapYear y then 29 else 28)
  else if m = 4 ∨ m = 6 ∨ m = 9 ∨ m = 11 then 30
  else 31

/-- Month normalization of `Date.UTC(year, month - 1, day)` for a parsed month
`m ∈ [0, 99]`: month index `m - 1` is folded into the year (index `-1` is
December of the previous year). Returns the normalized (year, month∈[1,12]). -/
def utcMonthNorm (y m : Nat) : Nat × Nat :=
  if m = 0 then (y - 1, 12) else (y + (m - 1) / 12, (m - 1) % 12 + 1)

/-- Day normalization of the JS Date object: day `0` is the last day of the
previous month, days beyond the month length roll into following months.
Parsed days lie in `[0, 99]`, so the fuel bound `9` is never exhausted. -/
def utcDayNorm : Nat → Nat × Nat × Nat → Nat × Nat × Nat
  | 0, ymd => ymd
  | fuel + 1, (y, m, d) =>
    if d = 0 then
      let ym := if m = 1 then (y - 1, 12) else (y, m - 1)
      (ym.1, ym.2, daysInMonth ym.1 ym.2)
    else if daysInMonth y m < d then
      let ym := if m = 12 then (y + 1, 1) else (y, m + 1)
      utcDayNorm fuel (ym.1, ym.2, d - daysInMonth y m)
    else (y, m, d)

/-- The (year, month, day) components read back from
`new Date(Date.UTC(year, month - 1, day))` via getUTCFullYear / getUTCMonth /
getUTCDate, for parsed components (`year ∈ [0,9999]`, `month, day ∈ [0,99]`).
JS maps two-digit years 0–99 to 1900+y and normalizes out-of-range month/day
values by calendar arithmetic. -/
def dateUtcComponents (y m d : Nat) : Nat × Nat × Nat :=
  let yy := if y ≤ 99 then 1900 + y else y
  let ym := utcMonthNorm yy m
  utcDayNorm 9 (ym.1, ym.2, d)

/-- The round-trip validity check of `normalizeDateInput`:
`parsed.getUTCFullYear() === year && parsed.getUTCMonth()+1 === month &&
parsed.getUTCDate() === day`. -/
def dateUtcRoundTrips (y m d : Nat) : Bool :=
  dateUtcComponents y m d == (y, m, d)

/-- Decimal digit test for `ABSOLUTE_DATE_PATTERN`. -/
def isDigitC (c : Char) : Bool := decide (48 ≤ c.toNat ∧ c.toNat ≤ 57)

/-- Numeric value of a decimal digit character. -/
def digitVal (c : Char) : Nat := c.toNat - 48

/-- `ABSOLUTE_DATE_PATTERN.exec` followed by `Number(...)` on the three
captures: matches exactly `\d{4}-\d{2}-\d{2}` over the whole string and
returns the numeric (year, month, day). -/
def parseDatePattern (s : Str) : Option (Nat × Nat × Nat) :=
  match s with
  | [y1, y2, y3, y4, h1, m1, m2, h2, d1, d2] =>
    if isDigitC y1 && isDigitC y2 && isDigitC y3 && isDigitC y4 && (h1 == '-') &&
       isDigitC m1 && isDigitC m2 && (h2 == '-') && isDigitC d1 && isDigitC d2 then
      some (digitVal y1 * 1000 + digitVal y2 * 100 + digitVal y3 * 10 + digitVal y4,
            digitVal m1 * 10 + digitVal m2,
            digitVal d1 * 10 + digitVal d2)
    else none
  | _ => none

/-- `date.setDate(date.getDate() - 1)` on a copy of `now`, in local calendar
components: the previous calendar day. -/
def prevDay (dt : LocalDate) : LocalDate :=
  if 1 < dt.day then { dt with day := dt.day - 1 }
  else if 1 < dt.month then
    { year := dt.year, month := dt.month - 1, day := daysInMonth dt.year (dt.month - 1) }
  else
    { year := dt.year - 1, month := 12, day := 31 }

/-- `toIsoLocalDate` from date.ts: `${year}-${pad2 month}-${pad2 day}` from
local components. -/
def toIsoLocalDate (date : LocalDate) : Str :=
  natStr date.year ++ '-' :: pad2 date.month ++ '-' :: pad2 date.day

/-- The first validation message of `normalizeDateInput` (input does not match
the absolute-date pattern). -/
def invalidDateMsg (input : Str) : Str :=
  "Invalid date \"".data ++ input ++
    "\". Expected YYYY-MM-DD or relative value \"yesterday\".".data

/-- The second validation message of `normalizeDateInput` (pattern matched but
the components do not denote a real calendar date). -/
def invalidCalendarDateMsg (input : Str) : Str :=
  "Invalid date \"".data ++ input ++ "\". Use a real calendar date in YYYY-MM-DD format.".data

/-- `normalizeDateInput` from date.ts: trim, recognise the case-insensitive
relative token "yesterday" (reference time minus one local calendar day,
rendered from local components), otherwise require an exact `YYYY-MM-DD`
match whose components round-trip through `Date.UTC`. -/
def normalizeDateInput (now : LocalDate) (input : Str) : Except CapacitiesError Str :=
  let normalizedInput := jsTrim input
  let lower := jsToLower normalizedInput
  if lower = "yesterday".data then
    .ok (toIsoLocalDate (prevDay now))
  else
    match parseDatePattern normalizedInput with
    | none => .error (createValidationError (invalidDateMsg input))
    | some (year, month, day) =>
      if dateUtcRoundTrips year month day then .ok normalizedInput
      else .error (createValidationError (invalidCalendarDateMsg input))

/- ===================== capacities-client.ts: response shapes ===================== -/

/-- A space from the `/spaces` response. -/
structure CapacitiesSpace where
  id : Str
  title : Str
  icon : Option Str := none
  deriving DecidableEq, Repr

/-- A structure definition from the `/space-info` response. The free-form
metadata record is represented by its only consulted entry: `pluralName`
holds the value of `getOptionalStringField(structure, "pluralName")`, i.e.
the metadata's "pluralName" key when it holds a string. -/
structure CapacitiesStructureInfo where
  id : Str
  title : Str
  pluralName : Option Str := none
  deriving DecidableEq, Repr

/-- A result row from the `/lookup` response. -/
structure CapacitiesLookupResult where
  id : Str
  structureId : Str
  title : Str
  deriving DecidableEq, Repr

/-- The `/spaces` response shape. -/
structure CapacitiesSpacesResponse where
  spaces : List CapacitiesSpace
  deriving DecidableEq, Repr

/-- The `/space-info` response shape. -/
structure CapacitiesSpaceInfoResponse where
  structures : List CapacitiesStructureInfo
  deriving DecidableEq, Repr

/-- The `/lookup` response shape. -/
structure CapacitiesLookupResponse where
  results : List CapacitiesLookupResult
  deriving DecidableEq, Repr

/-- A remote HTTP call issued by the client (one entry per `fetch`). -/
inductive RemoteCall where
  | spaces
  | spaceInfo (spaceId : Str)
  | lookup (searchTerm : Str) (spaceId : Str)
  deriving DecidableEq, Repr

/-- The remote API as an oracle: each endpoint yields either a parsed response
or the classified error raised by `requestJson` (HTTP status classification
via `createHttpError`, empty-body and invalid-JSON `api_error`s, transport
`network_error`s — all of which surface as a `CapacitiesError`). -/
structure RemoteEnv where
  spacesResult : Except CapacitiesError CapacitiesSpacesResponse
  spaceInfoResult : Str → Except CapacitiesError CapacitiesSpaceInfoResponse
  lookupResult : Str → Str → Except CapacitiesError CapacitiesLookupResponse

/-- `CapacitiesApiClient.getSpaces`: one GET to `/spaces`. -/
def clientGetSpaces (env : RemoteEnv) :
    Except CapacitiesError CapacitiesSpacesResponse × List RemoteCall :=
  (env.spacesResult, [.spaces])

/-- `CapacitiesApiClient.getSpaceInfo`: resolves the space id, then one GET to
`/space-info`; a failed resolution issues no call. -/
def clientGetSpaceInfo (env : RemoteEnv) (config : CapacitiesConfig) (spaceId : Option Str) :
    Except CapacitiesError CapacitiesSpaceInfoResponse × List RemoteCall :=
  match resolveSpaceId spaceId config with
  | .error e => (.error e, [])
  | .ok resolvedSpaceId => (env.spaceInfoResult resolvedSpaceId, [.spaceInfo resolvedSpaceId])

/-- `CapacitiesApiClient.lookup`: rejects an empty trimmed search term before
any network call, resolves the space id, then one POST to `/lookup`. -/
def clientLookup (env : RemoteEnv) (config : CapacitiesConfig) (searchTerm : Str)
    (spaceId : Option Str) :
    Except CapacitiesError CapacitiesLookupResponse × List RemoteCall :=
  let trimmedSearchTerm := jsTrim searchTerm
  if trimmedSearchTerm = [] then
    (.error (createValidationError "lookup searchTerm must be a non-empty string.".data), [])
  else
    match resolveSpaceId spaceId config with
    | .error e => (.error e, [])
    | .ok resolvedSpaceId =>
      (env.lookupResult trimmedSearchTerm resolvedSpaceId,
        [.lookup trimmedSearchTerm resolvedSpaceId])

/- ===================== shared tool-input plumbing ===================== -/

/-- `trimToUndefined` (identical in read-query-tools.ts and mutation-tools.ts):
`undefined` and falsy (empty) values give `undefined`; otherwise the value is
trimmed and an empty trim again gives `undefined`. -/
def trimToUndefined : Option Str → Option Str
  | none => none
  | some v =>
    if v = [] then none
    else if jsTrim v = [] then none else some (jsTrim v)

/-- `DEFAULT_LIMIT` from read-query-tools.ts. -/
def DEFAULT_LIMIT : Nat := 20

/-- `validateDateInputs` from read-query-tools.ts: a single date excludes a
range, a range must be paired, and a paired range must not be inverted
(JS string `>`on the canonical dates). -/
def validateDateInputs (date dateFrom dateTo : Option Str) : Except CapacitiesError Unit :=
  if truthy date && (truthy dateFrom || truthy dateTo) then
    .error (createValidationError "Use either date or dateFrom/dateTo, not both.".data)
  else if (truthy dateFrom && !truthy dateTo) || (!truthy dateFrom && truthy dateTo) then
    .error (createValidationError "dateFrom and dateTo must be provided together.".data)
  else if truthy dateFrom && truthy dateTo && strGt (dateFrom.getD []) (dateTo.getD []) then
    .error (createValidationError "dateFrom must be earlier than or equal to dateTo.".data)
  else .ok ()

/-- The conditional date-field normalization `input.date ?
normalizeDateInput(input.date) : undefined` (absent and falsy-empty inputs
are skipped). -/
def normOptDateField (now : LocalDate) : Option Str → Except CapacitiesError (Option Str)
  | none => .ok none
  | some s => if s = [] then .ok none else (normalizeDateInput now s).map some

/- ===================== read-query-tools.ts: filters and type mapping ===================== -/

/-- The `search_entities` tool input after schema decoding (all string fields
already trimmed by the zod `.trim()` transforms). -/
structure SearchEntitiesInput where
  spaceId : Option Str := none
  text : Option Str := none
  type : Option Str := none
  date : Option Str := none
  dateFrom : Option Str := none
  dateTo : Option Str := none
  limit : Option Nat := none
  deriving DecidableEq, Repr

/-- `SearchEntitiesFilters` from read-query-tools.ts. -/
structure SearchEntitiesFilters where
  spaceId : Option Str
  text : Option Str
  type : Option Str
  date : Option Str
  dateFrom : Option Str
  dateTo : Option Str
  limit : Nat
  deriving DecidableEq, Repr

/-- The `status` enumeration of list_tasks ("open" is a Lean keyword, hence
the constructor name `open_`). -/
inductive ListTaskStatus where
  | open_
  | completed
  | all
  deriving DecidableEq, Repr

/-- The `list_tasks` tool input after schema decoding. -/
structure ListTasksInput where
  spaceId : Option Str := none
  status : Option ListTaskStatus := none
  date : Option Str := none
  dateFrom : Option Str := none
  dateTo : Option Str := none
  deriving DecidableEq, Repr

/-- `ListTasksFilters` from read-query-tools.ts. -/
structure ListTasksFilters where
  spaceId : Option Str
  status : ListTaskStatus
  date : Option Str
  dateFrom : Option Str
  dateTo : Option Str
  deriving DecidableEq, Repr

/-- `normalizeSearchEntitiesFilters` from read-query-tools.ts: normalize the
three date fields in order, validate their combination, then trim the string
filters and default the limit. -/
def normalizeSearchEntitiesFilters (now : LocalDate) (input : SearchEntitiesInput) :
    Except CapacitiesError SearchEntitiesFilters := do
  let date ← normOptDateField now input.date
  let dateFrom ← normOptDateField now input.dateFrom
  let dateTo ← normOptDateField now input.dateTo
  validateDateInputs date dateFrom dateTo
  .ok { spaceId := trimToUndefined input.spaceId
        text := trimToUndefined input.text
        type := trimToUndefined input.type
        date, dateFrom, dateTo
        limit := input.limit.getD DEFAULT_LIMIT }

/-- `normalizeListTasksFilters` from read-query-tools.ts. -/
def normalizeListTasksFilters (now : LocalDate) (input : ListTasksInput) :
    Except CapacitiesError ListTasksFilters := do
  let date ← normOptDateField now input.date
  let dateFrom ← normOptDateField now input.dateFrom
  let dateTo ← normOptDateField now input.dateTo
  validateDateInputs date dateFrom dateTo
  .ok { spaceId := trimToUndefined input.spaceId
        status := input.status.getD .all
        date, dateFrom, dateTo }

/-- `resolveStructureIdsByType` from read-query-tools.ts: collect the ids of
all structures whose id, title or optional pluralName matches the type
filter case-insensitively. The JS `Set` is modelled as a list in insertion
order; duplicates are irrelevant to `has` and to `size > 0`. -/
def resolveStructureIdsByType (typeFilter : Str) (structures : List CapacitiesStructureInfo) :
    List Str :=
  let normalizedType := jsToLower typeFilter
  structures.foldl
    (fun structureIds st =>
      let titleMatches := jsToLower st.title = normalizedType
      let idMatches := jsToLower st.id = normalizedType
      let pluralMatches := st.pluralName.map jsToLower = some normalizedType
      if titleMatches ∨ idMatches ∨ pluralMatches then structureIds ++ [st.id]
      else structureIds)
    []

/-- `matchesTypeFilter` from read-query-tools.ts: membership in the resolved
id set when it is non-empty, otherwise direct case-insensitive equality with
the raw type filter. -/
def matchesTypeFilter (result : CapacitiesLookupResult) (typeFilter : Str)
    (allowedStructureIds : List Str) : Bool :=
  if allowedStructureIds ≠ [] then decide (result.structureId ∈ allowedStructureIds)
  else decide (jsToLower result.structureId = jsToLower typeFilter)

/- ===================== mutation-tools.ts: inputs and normalization ===================== -/

/-- The `status` enumeration of update_task ("open" is a Lean keyword, hence
the constructor name `open_`). -/
inductive TaskStatus where
  | open_
  | completed
  deriving DecidableEq, Repr

/-- The `create_task` tool input after schema decoding. -/
structure CreateTaskRawInput where
  spaceId : Option Str := none
  title : Str
  description : Option Str := none
  dueDate : Option Str := none
  deriving DecidableEq, Repr

/-- `CreateTaskInput` from mutation-tools.ts (spaceId holds the resolved id). -/
structure CreateTaskInput where
  spaceId : Str
  title : Str
  description : Option Str := none
  dueDate : Option Str := none
  deriving DecidableEq, Repr

/-- The `update_task` tool input after schema decoding. Nullable-optional
fields are `Option (Option Str)`: `none` is `undefined`, `some none` is an
explicit `null`, `some (some s)` a string. -/
structure UpdateTaskRawInput where
  taskId : Str
  spaceId : Option Str := none
  title : Option Str := none
  description : Option (Option Str) := none
  dueDate : Option (Option Str) := none
  status : Option TaskStatus := none
  deriving DecidableEq, Repr

/-- `UpdateTaskInput` from mutation-tools.ts (spaceId holds the resolved id). -/
structure UpdateTaskInput where
  taskId : Str
  spaceId : Str
  title : Option Str := none
  description : Option (Option Str) := none
  dueDate : Option (Option Str) := none
  status : Option TaskStatus := none
  deriving DecidableEq, Repr

/-- The `complete_task` tool input after schema decoding. -/
structure CompleteTaskRawInput where
  taskId : Str
  spaceId : Option Str := none
  completed : Option Bool := none
  deriving DecidableEq, Repr

/-- `CompleteTaskInput` from mutation-tools.ts. -/
structure CompleteTaskInput where
  taskId : Str
  spaceId : Str
  completed : Bool
  deriving DecidableEq, Repr

/-- `normalizeOptionalDate` from mutation-tools.ts. -/
def normalizeOptionalDate (now : LocalDate) (value : Option Str) :
    Except CapacitiesError (Option Str) :=
  match value with
  | none => .ok none
  | some v =>
    match trimToUndefined (some v) with
    | none =>
      .error (createValidationError "dueDate must be a non-empty date string when provided.".data)
    | some trimmed => (normalizeDateInput now trimmed).map some

/-- `normalizeNullableText` from mutation-tools.ts: `undefined` and `null`
pass through, a provided string must be non-empty after trimming. -/
def normalizeNullableText (value : Option (Option Str)) (fieldName : Str) :
    Except CapacitiesError (Option (Option Str)) :=
  match value with
  | none => .ok none
  | some none => .ok (some none)
  | some (some v) =>
    match trimToUndefined (some v) with
    | none =>
      .error (createValidationError
        (fieldName ++ " must be a non-empty string when provided.".data))
    | some trimmed => .ok (some (some trimmed))

/-- `normalizeNullableDate` from mutation-tools.ts. -/
def normalizeNullableDate (now : LocalDate) (value : Option (Option Str)) :
    Except CapacitiesError (Option (Option Str)) :=
  match value with
  | none => .ok none
  | some none => .ok (some none)
  | some (some v) =>
    match trimToUndefined (some v) with
    | none =>
      .error (createValidationError "dueDate must be a non-empty date string when provided.".data)
    | some trimmed => (normalizeDateInput now trimmed).map (fun d => some (some d))

/-- `normalizeCreateTaskInput` from mutation-tools.ts: the title must be
non-empty after trimming; the returned record resolves the space id before
normalizing the due date (JS property-initializer order). -/
def normalizeCreateTaskInput (now : LocalDate) (config : CapacitiesConfig)
    (input : CreateTaskRawInput) : Except CapacitiesError CreateTaskInput :=
  match trimToUndefined (some input.title) with
  | none => .error (createValidationError "title must be a non-empty string.".data)
  | some title => do
    let spaceId ← resolveSpaceId input.spaceId config
    let dueDate ← normalizeOptionalDate now input.dueDate
    .ok { spaceId, title, description := trimToUndefined input.description, dueDate }

/-- `normalizeUpdateTaskInput` from mutation-tools.ts: non-empty taskId, a
provided title must trim non-empty, nullable description/dueDate are
normalized, at least one update field must be supplied, and only then is the
space id resolved (it sits in the returned record, after the check). -/
def normalizeUpdateTaskInput (now : LocalDate) (config : CapacitiesConfig)
    (input : UpdateTaskRawInput) : Except CapacitiesError UpdateTaskInput :=
  match trimToUndefined (some input.taskId) with
  | none => .error (createValidationError "taskId must be a non-empty string.".data)
  | some taskId =>
    let title := match input.title with
      | none => none
      | some t => trimToUndefined (some t)
    if input.title ≠ none ∧ title = none then
      .error (createValidationError "title must be a non-empty string when provided.".data)
    else do
      let description ← normalizeNullableText input.description "description".data
      let dueDate ← normalizeNullableDate now input.dueDate
      let status := input.status
      if title = none ∧ description = none ∧ dueDate = none ∧ status = none then
        .error (createValidationError
          "Provide at least one update field: title, description, dueDate, or status.".data)
      else do
        let spaceId ← resolveSpaceId input.spaceId config
        .ok { taskId, spaceId, title, description, dueDate, status }

/-- `normalizeCompleteTaskInput` from mutation-tools.ts: non-empty taskId,
resolved space id, completion flag defaulting to true. -/
def normalizeCompleteTaskInput (config : CapacitiesConfig) (input : CompleteTaskRawInput) :
    Except CapacitiesError CompleteTaskInput :=
  match trimToUndefined (some input.taskId) with
  | none => .error (createValidationError "taskId must be a non-empty string.".data)
  | some taskId => do
    let spaceId ← resolveSpaceId input.spaceId config
    .ok { taskId, spaceId, completed := input.completed.getD true }

/- ===================== the dual-shaped tool result envelope ===================== -/

/-- Rendering of an `ErrCode` as its string name (the template
interpolation of `error.code`). -/
def errCodeStr : ErrCode → Str
  | .config_error => "config_error".data
  | .validation_error => "validation_error".data
  | .network_error => "network_error".data
  | .api_error => "api_error".data
  | .rate_limit => "rate_limit".data
  | .unsupported => "unsupported".data

/-- Rendering of a list_tasks status as its wire string. -/
def listTaskStatusStr : ListTaskStatus → Str
  | .open_ => "open".data
  | .completed => "completed".data
  | .all => "all".data

/-- Rendering of an update_task status as its wire string. -/
def taskStatusStr : TaskStatus → Str
  | .open_ => "open".data
  | .completed => "completed".data

/-- The structured success payload of get_space_info. -/
structure SpaceInfoPayload where
  tool : Str
  spaceId : Str
  spaceTitle : Option Str
  spacesCount : Nat
  structures : List CapacitiesStructureInfo
  deriving DecidableEq, Repr

/-- The structured success payload of search_entities. -/
structure SearchEntitiesPayload where
  tool : Str
  query : SearchEntitiesFilters
  totalResultsBeforeLimit : Nat
  returnedResults : Nat
  unsupportedNotes : List Str
  results : List CapacitiesLookupResult
  deriving DecidableEq, Repr

/-- The error sub-object of the unsupported shape (no status field). -/
structure UnsupportedErrorInfo where
  code : ErrCode
  message : Str
  actionableMessage : Str
  deriving DecidableEq, Repr

/-- The error sub-object of the error shape (status is null when absent). -/
structure ErrorInfoPayload where
  code : ErrCode
  message : Str
  status : Option Nat
  actionableMessage : Str
  deriving DecidableEq, Repr

/-- The error shape assembled by `errorResult`. -/
structure ErrorPayload where
  tool : Str
  ok : Bool
  error : ErrorInfoPayload
  deriving DecidableEq, Repr

/-- The `supported` map of the search_entities unsupported details, naming
which filter dimensions are and are not honored. -/
structure SupportedMap where
  text : Bool
  type : Str
  date : Bool
  dateRange : Bool
  deriving DecidableEq, Repr

/-- The constant `supported` map of the search_entities no-text response. -/
def searchSupportedMap : SupportedMap :=
  { text := true
    type := "best-effort (via structureId/title mapping)".data
    date := false
    dateRange := false }

/-- The `AVAILABLE_ENDPOINTS` constant (identical literal in
read-query-tools.ts and mutation-tools.ts). -/
def AVAILABLE_ENDPOINTS : List Str :=
  [ "/spaces".data, "/space-info".data, "/lookup".data, "/save-weblink".data,
    "/save-to-daily-note".data ]

/-- The per-tool `details` object passed to `unsupportedResult`. -/
inductive UnsupportedDetails where
  | searchFilters (requestedFilters : SearchEntitiesFilters) (supported : SupportedMap)
  | entity (entityId : Str) (structureId : Str) (spaceId : Option Str)
      (availableEndpoints : List Str)
  | listFilters (requestedFilters : ListTasksFilters) (availableEndpoints : List Str)
  | createTask (requestedTask : CreateTaskInput) (availableEndpoints : List Str)
  | updateTask (requestedUpdate : UpdateTaskInput) (availableEndpoints : List Str)
  | completeTask (requestedAction : CompleteTaskInput) (availableEndpoints : List Str)
  deriving DecidableEq, Repr

/-- The unsupported shape assembled by `unsupportedResult`: the literal
`supported: false` field, the unsupported error info, and the details. -/
structure UnsupportedPayload where
  tool : Str
  supported : Bool
  error : UnsupportedErrorInfo
  details : UnsupportedDetails
  deriving DecidableEq, Repr

/-- `structuredContent`: exactly one of the success, unsupported or error
shapes (success split by tool payload type). -/
inductive StructuredContent where
  | spaceInfo (p : SpaceInfoPayload)
  | searchResults (p : SearchEntitiesPayload)
  | unsupported (p : UnsupportedPayload)
  | errorContent (p : ErrorPayload)
  deriving DecidableEq, Repr

/-- The universal tool result: rendered markdown text paired with the
structured payload; `isError` is only set by `errorResult` (absent, hence
false, elsewhere). -/
structure ToolResult where
  content : Str
  structuredContent : StructuredContent
  isError : Bool := false
  deriving DecidableEq, Repr

/- ===================== JSON.stringify model for the details block ===================== -/

/-- JSON string literal (escaping of quotes inside values elided). -/
def jsonQuote (s : Str) : Str := '"' :: s ++ ['"']

/-- JS Array.prototype.join(","). -/
def joinComma : List Str → Str
  | [] => []
  | [x] => x
  | x :: xs => x ++ ',' :: joinComma xs

/-- A JSON object from rendered fields (stringify whitespace elided). -/
def jsonObj (fields : List Str) : Str := '\x7b' :: joinComma fields ++ ['\x7d']

/-- A JSON array from rendered items. -/
def jsonArr (items : List Str) : Str := '[' :: joinComma items ++ [']']

/-- A rendered JSON object field. -/
def jsonField (name : String) (v : Str) : Str := jsonQuote name.data ++ ':' :: v

/-- A string-or-null JSON value. -/
def jsonOptStr : Option Str → Str
  | none => "null".data
  | some s => jsonQuote s

/-- A JSON boolean value. -/
def jsonBool : Bool → Str
  | true => "true".data
  | false => "false".data

/-- JSON rendering of search filters (undefined optionals stringify away;
they are rendered as null here, which the claims never inspect). -/
def searchFiltersJson (f : SearchEntitiesFilters) : Str :=
  jsonObj
    [ jsonField "spaceId" (jsonOptStr f.spaceId), jsonField "text" (jsonOptStr f.text)
    , jsonField "type" (jsonOptStr f.type), jsonField "date" (jsonOptStr f.date)
    , jsonField "dateFrom" (jsonOptStr f.dateFrom), jsonField "dateTo" (jsonOptStr f.dateTo)
    , jsonField "limit" (natStr f.limit) ]

/-- JSON rendering of list_tasks filters. -/
def listFiltersJson (f : ListTasksFilters) : Str :=
  jsonObj
    [ jsonField "spaceId" (jsonOptStr f.spaceId)
    , jsonField "status" (jsonQuote (listTaskStatusStr f.status))
    , jsonField "date" (jsonOptStr f.date), jsonField "dateFrom" (jsonOptStr f.dateFrom)
    , jsonField "dateTo" (jsonOptStr f.dateTo) ]

/-- JSON rendering of a nullable-optional string field (undefined omitted). -/
def jsonNullableField (name : String) : Option (Option Str) → List Str
  | none => []
  | some none => [jsonField name "null".data]
  | some (some s) => [jsonField name (jsonQuote s)]

/-- JSON rendering of the create_task payload. -/
def createTaskJson (t : CreateTaskInput) : Str :=
  jsonObj
    ([ jsonField "spaceId" (jsonQuote t.spaceId), jsonField "title" (jsonQuote t.title) ] ++
      (match t.description with | none => [] | some d => [jsonField "description" (jsonQuote d)]) ++
      (match t.dueDate with | none => [] | some d => [jsonField "dueDate" (jsonQuote d)]))

/-- JSON rendering of the update_task payload. -/
def updateTaskJson (t : UpdateTaskInput) : Str :=
  jsonObj
    ([ jsonField "taskId" (jsonQuote t.taskId), jsonField "spaceId" (jsonQuote t.spaceId) ] ++
      (match t.title with | none => [] | some s => [jsonField "title" (jsonQuote s)]) ++
      jsonNullableField "description" t.description ++
      jsonNullableField "dueDate" t.dueDate ++
      (match t.status with | none => [] | some s => [jsonField "status" (jsonQuote (taskStatusStr s))]))

/-- JSON rendering of the complete_task payload. -/
def completeTaskJson (t : CompleteTaskInput) : Str :=
  jsonObj
    [ jsonField "taskId" (jsonQuote t.taskId), jsonField "spaceId" (jsonQuote t.spaceId)
    , jsonField "completed" (jsonBool t.completed) ]

/-- JSON rendering of the `supported` map of the search no-text response. -/
def supportedMapJson (m : SupportedMap) : Str :=
  jsonObj
    [ jsonField "text" (jsonBool m.text), jsonField "type" (jsonQuote m.type)
    , jsonField "date" (jsonBool m.date), jsonField "dateRange" (jsonBool m.dateRange) ]

/-- `JSON.stringify(details, null, 2)` (indentation elided). -/
def detailsJson : UnsupportedDetails → Str
  | .searchFilters f supported =>
    jsonObj [ jsonField "requestedFilters" (searchFiltersJson f)
            , jsonField "supported" (supportedMapJson supported) ]
  | .entity entityId structureId spaceId endpoints =>
    jsonObj [ jsonField "requestedEntity"
                (jsonObj [ jsonField "entityId" (jsonQuote entityId)
                         , jsonField "structureId" (jsonQuote structureId)
                         , jsonField "spaceId" (jsonOptStr spaceId) ])
            , jsonField "availableEndpoints" (jsonArr (endpoints.map jsonQuote)) ]
  | .listFilters f endpoints =>
    jsonObj [ jsonField "requestedFilters" (listFiltersJson f)
            , jsonField "availableEndpoints" (jsonArr (endpoints.map jsonQuote)) ]
  | .createTask t endpoints =>
    jsonObj [ jsonField "requestedTask" (createTaskJson t)
            , jsonField "availableEndpoints" (jsonArr (endpoints.map jsonQuote)) ]
  | .updateTask t endpoints =>
    jsonObj [ jsonField "requestedUpdate" (updateTaskJson t)
            , jsonField "availableEndpoints" (jsonArr (endpoints.map jsonQuote)) ]
  | .completeTask t endpoints =>
    jsonObj [ jsonField "requestedAction" (completeTaskJson t)
            , jsonField "availableEndpoints" (jsonArr (endpoints.map jsonQuote)) ]

/- ===================== result builders (identical in both tool files) ===================== -/

/-- `unsupportedResult`: the explicit-unsupported shape, `supported: false`,
paired with its markdown rendering. -/
def unsupportedResult (toolName : Str) (message : Str) (details : UnsupportedDetails) :
    ToolResult :=
  let unsupportedError := createUnsupportedError message
  let markdown := joinNl
    [ "## ".data ++ toolName
    , []
    , "- Supported: **no**".data
    , "- Error code: `".data ++ errCodeStr unsupportedError.code ++ "`".data
    , "- Message: ".data ++ unsupportedError.message
    , "- Action: ".data ++ unsupportedError.actionableMessage
    , []
    , "### Details".data
    , "```json".data
    , detailsJson details
    , "```".data ]
  { content := markdown
    structuredContent := .unsupported
      { tool := toolName
        supported := false
        error := { code := unsupportedError.code, message := unsupportedError.message
                   actionableMessage := unsupportedError.actionableMessage }
        details }
    isError := false }

/-- `errorResult`: the error shape with `ok: false` and `isError: true`,
paired with its markdown rendering (empty status line filtered out). -/
def errorResult (toolName : Str) (error : CapacitiesError) : ToolResult :=
  let normalizedError := normalizeCapacitiesError error
  let statusLine : Str :=
    match normalizedError.status with
    | some s => "- Status: ".data ++ natStr s
    | none => []
  let markdown := joinNl
    (([ "## ".data ++ toolName ++ " error".data
      , []
      , "- Code: `".data ++ errCodeStr normalizedError.code ++ "`".data
      , "- Message: ".data ++ normalizedError.message
      , statusLine
      , "- Action: ".data ++ normalizedError.actionableMessage
      ]).filter (fun line => decide (0 < line.length)))
  { content := markdown
    structuredContent := .errorContent
      { tool := toolName
        ok := false
        error := { code := normalizedError.code, message := normalizedError.message
                   status := normalizedError.status
                   actionableMessage := normalizedError.actionableMessage } }
    isError := true }

/- ===================== read-query-tools.ts: renderers ===================== -/

/-- `renderSpaceInfoMarkdown` from read-query-tools.ts. -/
def renderSpaceInfoMarkdown (spaceId : Str) (spaceTitle : Option Str) (spacesCount : Nat)
    (structures : List CapacitiesStructureInfo) : Str :=
  let structureLines :=
    if structures ≠ [] then
      joinNl (structures.map (fun st => "- `".data ++ st.id ++ "` - ".data ++ st.title))
    else "- No structures returned by Capacities API.".data
  joinNl
    [ "## Space Info".data
    , []
    , "- Space ID: `".data ++ spaceId ++ "`".data
    , "- Space title: ".data ++
        (match spaceTitle with
         | some t => t
         | none => "_Unknown in /spaces response_".data)
    , "- Accessible spaces in token scope: ".data ++ natStr spacesCount
    , "- Structures returned: ".data ++ natStr structures.length
    , []
    , "### Structures".data
    , structureLines ]

/-- `renderDateFilter` from read-query-tools.ts. -/
def renderDateFilter (filters : SearchEntitiesFilters) : Str :=
  if truthy filters.date then '`' :: filters.date.getD [] ++ "`".data
  else if truthy filters.dateFrom && truthy filters.dateTo then
    '`' :: filters.dateFrom.getD [] ++ "` to `".data ++ filters.dateTo.getD [] ++ "`".data
  else "_Not provided_".data

/-- `renderSearchEntitiesMarkdown` from read-query-tools.ts. -/
def renderSearchEntitiesMarkdown (filters : SearchEntitiesFilters)
    (results : List CapacitiesLookupResult) (totalBeforeLimit : Nat) (notes : List Str) : Str :=
  let resultsLines :=
    if results ≠ [] then
      joinNl (results.map (fun r =>
        "- **".data ++ r.title ++ "**  \n  ID: `".data ++ r.id ++
          "`  \n  Structure: `".data ++ r.structureId ++ "`".data))
    else "- No matching entities.".data
  let notesLines :=
    if notes ≠ [] then joinNl (notes.map (fun note => "- ".data ++ note))
    else "- None.".data
  joinNl
    [ "## Search Entities".data
    , []
    , "- Text query: ".data ++
        (if truthy filters.text then '`' :: filters.text.getD [] ++ "`".data
         else "_Not provided_".data)
    , "- Type filter: ".data ++
        (if truthy filters.type then '`' :: filters.type.getD [] ++ "`".data
         else "_Not provided_".data)
    , "- Date filter: ".data ++ renderDateFilter filters
    , "- Matches before limit: ".data ++ natStr totalBeforeLimit
    , "- Returned after limit (".data ++ natStr filters.limit ++ "): ".data ++
        natStr results.length
    , []
    , "### Results".data
    , resultsLines
    , []
    , "### Notes".data
    , notesLines ]

/- ===================== the seven tool handlers ===================== -/

/-- The success return of the get_space_info handler (the inline object
built after both concurrent calls succeed). -/
def spaceInfoSuccessResult (resolvedSpaceId : Str) (spacesResponse : CapacitiesSpacesResponse)
    (spaceInfoResponse : CapacitiesSpaceInfoResponse) : ToolResult :=
  let selectedSpace := spacesResponse.spaces.find? (fun space => space.id == resolvedSpaceId)
  { content := renderSpaceInfoMarkdown resolvedSpaceId (selectedSpace.map (·.title))
      spacesResponse.spaces.length spaceInfoResponse.structures
    structuredContent := .spaceInfo
      { tool := "get_space_info".data
        spaceId := resolvedSpaceId
        spaceTitle := selectedSpace.map (·.title)
        spacesCount := spacesResponse.spaces.length
        structures := spaceInfoResponse.structures }
    isError := false }

/-- The get_space_info handler: resolve the space id, issue the spaces and
space-info calls jointly (`Promise.all`; both fetches are launched, a failed
branch fails the whole operation with no partial result). -/
def getSpaceInfoTool (env : RemoteEnv) (config : CapacitiesConfig) (spaceId : Option Str) :
    ToolResult × List RemoteCall :=
  match resolveSpaceId spaceId config with
  | .error e => (errorResult "get_space_info".data e, [])
  | .ok resolvedSpaceId =>
    let spacesOut := clientGetSpaces env
    let infoOut := clientGetSpaceInfo env config (some resolvedSpaceId)
    let calls := spacesOut.2 ++ infoOut.2
    match spacesOut.1, infoOut.1 with
    | .ok spacesResponse, .ok spaceInfoResponse =>
      (spaceInfoSuccessResult resolvedSpaceId spacesResponse spaceInfoResponse, calls)
    | .error e, _ => (errorResult "get_space_info".data e, calls)
    | .ok _, .error e => (errorResult "get_space_info".data e, calls)

/-- The unsupported message of the search_entities no-text response. -/
def searchNoTextMsg : Str :=
  "Capacities /lookup requires a non-empty text query. Date-only or type-only search is not supported by the public API.".data

/-- The note recorded when the type filter leaves no results. -/
def noTypeMatchesNote (typeFilter : Str) : Str :=
  "No results matched type filter `".data ++ typeFilter ++
    "` using structure metadata from `/space-info`.".data

/-- The note recorded when any date filter is present. -/
def dateFiltersNote : Str :=
  "Date filters are accepted for compatibility but not applied because /lookup does not return entity date fields.".data

/-- The success return of the search_entities handler: truncate to the limit
and report pre- and post-truncation counts. -/
def searchSuccessResult (filters : SearchEntitiesFilters)
    (filteredResults : List CapacitiesLookupResult) (notes : List Str) : ToolResult :=
  let limitedResults := filteredResults.take filters.limit
  { content := renderSearchEntitiesMarkdown filters limitedResults filteredResults.length notes
    structuredContent := .searchResults
      { tool := "search_entities".data
        query := filters
        totalResultsBeforeLimit := filteredResults.length
        returnedResults := limitedResults.length
        unsupportedNotes := notes
        results := limitedResults }
    isError := false }

/-- The search_entities handler: normalize filters, resolve the space id,
return the explicit-unsupported shape when no text is present, otherwise
look up and apply the best-effort type filter, recording notes. -/
def searchEntitiesTool (env : RemoteEnv) (config : CapacitiesConfig) (now : LocalDate)
    (input : SearchEntitiesInput) : ToolResult × List RemoteCall :=
  match normalizeSearchEntitiesFilters now input with
  | .error e => (errorResult "search_entities".data e, [])
  | .ok filters =>
    match resolveSpaceId filters.spaceId config with
    | .error e => (errorResult "search_entities".data e, [])
    | .ok resolvedSpaceId =>
      match filters.text with
      | none =>
        (unsupportedResult "search_entities".data searchNoTextMsg
          (.searchFilters filters searchSupportedMap), [])
      | some text =>
        match clientLookup env config text (some resolvedSpaceId) with
        | (.error e, lookupCalls) => (errorResult "search_entities".data e, lookupCalls)
        | (.ok lookupResponse, lookupCalls) =>
          match filters.type with
          | some typeFilter =>
            match clientGetSpaceInfo env config (some resolvedSpaceId) with
            | (.error e, infoCalls) =>
              (errorResult "search_entities".data e, lookupCalls ++ infoCalls)
            | (.ok spaceInfoResponse, infoCalls) =>
              let allowedStructureIds :=
                resolveStructureIdsByType typeFilter spaceInfoResponse.structures
              let filteredResults := lookupResponse.results.filter
                (fun result => matchesTypeFilter result typeFilter allowedStructureIds)
              let typeNotes :=
                if filteredResults = [] then [noTypeMatchesNote typeFilter] else []
              let notes := typeNotes ++
                (if truthy filters.date || truthy filters.dateFrom || truthy filters.dateTo then
                  [dateFiltersNote] else [])
              (searchSuccessResult filters filteredResults notes, lookupCalls ++ infoCalls)
          | none =>
            let notes :=
              if truthy filters.date || truthy filters.dateFrom || truthy filters.dateTo then
                [dateFiltersNote] else []
            (searchSuccessResult filters lookupResponse.results notes, lookupCalls)

/-- The get_entity_by_id tool input after schema decoding. -/
structure GetEntityByIdInput where
  entityId : Str
  structureId : Str
  spaceId : Option Str := none
  deriving DecidableEq, Repr

/-- The unsupported message of get_entity_by_id. -/
def getEntityByIdUnsupportedMsg : Str :=
  "Capacities public API does not provide a documented endpoint to fetch an entity by ID and structure.".data

/-- The get_entity_by_id handler: always the explicit-unsupported shape,
echoing entityId, structureId and `spaceId ?? config.defaultSpaceId ?? null`. -/
def getEntityByIdTool (config : CapacitiesConfig) (input : GetEntityByIdInput) :
    ToolResult × List RemoteCall :=
  (unsupportedResult "get_entity_by_id".data getEntityByIdUnsupportedMsg
    (.entity input.entityId input.structureId
      (match input.spaceId with
       | some s => some s
       | none => config.defaultSpaceId)
      AVAILABLE_ENDPOINTS), [])

/-- The unsupported message of list_tasks. -/
def listTasksUnsupportedMsg : Str :=
  "Capacities public API does not provide a documented endpoint for listing tasks or filtering by task status/date.".data

/-- The list_tasks handler: normalize (and so validate) the filters, then
return the explicit-unsupported shape; no remote call is ever issued. -/
def listTasksTool (now : LocalDate) (input : ListTasksInput) : ToolResult × List RemoteCall :=
  match normalizeListTasksFilters now input with
  | .error e => (errorResult "list_tasks".data e, [])
  | .ok filters =>
    (unsupportedResult "list_tasks".data listTasksUnsupportedMsg
      (.listFilters filters AVAILABLE_ENDPOINTS), [])

/-- The unsupported message of create_task. -/
def createTaskUnsupportedMsg : Str :=
  "Capacities public API does not provide a documented endpoint for creating tasks.".data

/-- The create_task handler. -/
def createTaskTool (config : CapacitiesConfig) (now : LocalDate) (input : CreateTaskRawInput) :
    ToolResult × List RemoteCall :=
  match normalizeCreateTaskInput now config input with
  | .error e => (errorResult "create_task".data e, [])
  | .ok payload =>
    (unsupportedResult "create_task".data createTaskUnsupportedMsg
      (.createTask payload AVAILABLE_ENDPOINTS), [])

/-- The unsupported message of update_task. -/
def updateTaskUnsupportedMsg : Str :=
  "Capacities public API does not provide a documented endpoint for updating task fields or status.".data

/-- The update_task handler. -/
def updateTaskTool (config : CapacitiesConfig) (now : LocalDate) (input : UpdateTaskRawInput) :
    ToolResult × List RemoteCall :=
  match normalizeUpdateTaskInput now config input with
  | .error e => (errorResult "update_task".data e, [])
  | .ok payload =>
    (unsupportedResult "update_task".data updateTaskUnsupportedMsg
      (.updateTask payload AVAILABLE_ENDPOINTS), [])

/-- The unsupported message of complete_task. -/
def completeTaskUnsupportedMsg : Str :=
  "Capacities public API does not provide a documented endpoint for completing or uncompleting tasks.".data

/-- The complete_task handler. -/
def completeTaskTool (config : CapacitiesConfig) (input : CompleteTaskRawInput) :
    ToolResult × List RemoteCall :=
  match normalizeCompleteTaskInput config input with
  | .error e => (errorResult "complete_task".data e, [])
  | .ok payload =>
    (unsupportedResult "complete_task".data completeTaskUnsupportedMsg
      (.completeTask payload AVAILABLE_ENDPOINTS), [])

/- ===================== result-shape predicates ===================== -/

/-- A result is well-formed when its rendered text is non-empty, exactly one
structured shape is populated (enforced per constructor), the unsupported
shape carries `supported = false`, the error shape carries `ok = false`, and
the `isError` flag is set exactly on the error shape. -/
def wellFormedResult (r : ToolResult) : Prop :=
  r.content ≠ [] ∧
  match r.structuredContent with
  | .spaceInfo _ => r.isError = false
  | .searchResults _ => r.isError = false
  | .unsupported p => p.supported = false ∧ r.isError = false
  | .errorContent p => p.ok = false ∧ r.isError = true

/-- The result populates the explicit-unsupported shape. -/
def isUnsupportedResult (r : ToolResult) : Prop :=
  ∃ p, r.structuredContent = .unsupported p

/-- The result populates the error shape with the given code. -/
def isErrorResultWithCode (c : ErrCode) (r : ToolResult) : Prop :=
  ∃ p, r.structuredContent = .errorContent p ∧ p.error.code = c

/-- The unsupported notes of a search success payload, when the result is one. -/
def notesOf (r : ToolResult) : Option (List Str) :=
  match r.structuredContent with
  | .searchResults p => some p.unsupportedNotes
  | _ => none

/-- The returned results of a search success payload, when the result is one. -/
def resultsOf (r : ToolResult) : Option (List CapacitiesLookupResult) :=
  match r.structuredContent with
  | .searchResults p => some p.results
  | _ => none

/- ===================== helper lemmas ===================== -/

theorem joinNl_cons_cons (a b : Str) (t : List Str) : joinNl (a :: b :: t) ≠ [] := by
  simp only [joinNl]
  cases a <;> simp

theorem joinNl_ne_nil_of_head (l : Str) (ls : List Str) (h : l ≠ []) :
    joinNl (l :: ls) ≠ [] := by
  cases ls with
  | nil => simpa [joinNl] using h
  | cons b t => exact joinNl_cons_cons l b t

theorem wf_unsupportedResult (toolName message : Str) (details : UnsupportedDetails) :
    wellFormedResult (unsupportedResult toolName message details) := by
  unfold wellFormedResult unsupportedResult
  exact ⟨joinNl_cons_cons _ _ _, rfl, rfl⟩

theorem errorResult_structured (toolName : Str) (e : CapacitiesError) :
    (errorResult toolName e).structuredContent =
      .errorContent
        { tool := toolName, ok := false
          error := { code := e.code, message := e.message, status := e.status
                     actionableMessage := e.actionableMessage } } := rfl

theorem wf_errorResult (toolName : Str) (e : CapacitiesError) :
    wellFormedResult (errorResult toolName e) := by
  unfold wellFormedResult errorResult normalizeCapacitiesError
  refine ⟨?_, rfl, rfl⟩
  have hhead : decide (0 < ("## ".data ++ toolName ++ " error".data).length) = true := by
    simp [List.length_append]
  simp only [List.filter_cons, hhead, if_true]
  exact joinNl_ne_nil_of_head _ _ (by simp [List.length_append])

theorem wf_spaceInfoSuccessResult (sid : Str) (spacesResponse : CapacitiesSpacesResponse)
    (spaceInfoResponse : CapacitiesSpaceInfoResponse) :
    wellFormedResult (spaceInfoSuccessResult sid spacesResponse spaceInfoResponse) := by
  unfold wellFormedResult spaceInfoSuccessResult renderSpaceInfoMarkdown
  exact ⟨joinNl_cons_cons _ _ _, rfl⟩

theorem wf_searchSuccessResult (filters : SearchEntitiesFilters)
    (filteredResults : List CapacitiesLookupResult) (notes : List Str) :
    wellFormedResult (searchSuccessResult filters filteredResults notes) := by
  unfold wellFormedResult searchSuccessResult renderSearchEntitiesMarkdown
  exact ⟨joinNl_cons_cons _ _ _, rfl⟩

theorem resolveSpaceId_none_none (config : CapacitiesConfig)
    (h : config.defaultSpaceId = none) :
    resolveSpaceId none config = .error (createConfigError missingSpaceIdMsg) := by
  simp [resolveSpaceId, h]

theorem resolveSpaceId_bad_explicit (config : CapacitiesConfig) (s : Str)
    (h1 : jsTrim s ≠ []) (h2 : isUuid (jsTrim s) = false) :
    resolveSpaceId (some s) config =
      .error (createValidationError (spaceIdNotUuidMsg (jsTrim s))) := by
  simp [resolveSpaceId, h1, h2]

theorem parseDatePattern_length (s : Str) (t : Nat × Nat × Nat)
    (h : parseDatePattern s = some t) : s.length = 10 := by
  unfold parseDatePattern at h
  split at h
  · rename_i y1 y2 y3 y4 h1 m1 m2 h2 d1 d2
    simp
  · exact absurd h (by simp)

theorem validateDateInputs_fails (date dateFrom dateTo : Option Str)
    (h : (truthy date && (truthy dateFrom || truthy dateTo) ||
          ((truthy dateFrom && !truthy dateTo) || (!truthy dateFrom && truthy dateTo)) ||
          (truthy dateFrom && truthy dateTo &&
            strGt (dateFrom.getD []) (dateTo.getD []))) = true) :
    ∃ e, validateDateInputs date dateFrom dateTo = .error e ∧ e.code = .validation_error := by
  unfold validateDateInputs
  by_cases h1 : (truthy date && (truthy dateFrom || truthy dateTo)) = true
  · exact ⟨_, by rw [if_pos h1], rfl⟩
  · rw [if_neg h1]
    by_cases h2 : ((truthy dateFrom && !truthy dateTo) ||
        (!truthy dateFrom && truthy dateTo)) = true
    · exact ⟨_, by rw [if_pos h2], rfl⟩
    · rw [if_neg h2]
      by_cases h3 : (truthy dateFrom && truthy dateTo &&
          strGt (dateFrom.getD []) (dateTo.getD [])) = true
      · exact ⟨_, by rw [if_pos h3], rfl⟩
      · simp only [Bool.or_eq_true] at h h2
        rcases h with (h | h) | h
        · exact absurd h h1
        · exact absurd h h2
        · exact absurd h h3

theorem normalizeSearchEntitiesFilters_fields (now : LocalDate) (input : SearchEntitiesInput)
    (filters : SearchEntitiesFilters)
    (h : normalizeSearchEntitiesFilters now input = .ok filters) :
    filters.spaceId = trimToUndefined input.spaceId ∧
    filters.text = trimToUndefined input.text ∧
    filters.type = trimToUndefined input.type ∧
    filters.limit = input.limit.getD DEFAULT_LIMIT ∧
    normOptDateField now input.date = .ok filters.date ∧
    normOptDateField now input.dateFrom = .ok filters.dateFrom ∧
    normOptDateField now input.dateTo = .ok filters.dateTo := by
  unfold normalizeSearchEntitiesFilters at h
  rcases hd : normOptDateField now input.date with e | date <;> rw [hd] at h <;>
    simp only [Bind.bind, Except.bind] at h
  · exact absurd h (by simp)
  rcases hf : normOptDateField now input.dateFrom with e | dateFrom <;> rw [hf] at h <;>
    simp only [Bind.bind, Except.bind] at h
  · exact absurd h (by simp)
  rcases hto : normOptDateField now input.dateTo with e | dateTo <;> rw [hto] at h <;>
    simp only [Bind.bind, Except.bind] at h
  · exact absurd h (by simp)
  rcases hv : validateDateInputs date dateFrom dateTo with e | u <;> rw [hv] at h <;>
    simp only [Bind.bind, Except.bind] at h
  · exact absurd h (by simp)
  cases u
  rw [Except.ok.injEq] at h
  subst h
  exact ⟨rfl, rfl, rfl, rfl, rfl, rfl, rfl⟩

/- ===================== concrete fixtures for witnesses ===================== -/

/-- A syntactically valid UUID used by concrete instances. -/
def uuidW : Str := "11111111-1111-4111-8111-111111111111".data

/-- A configuration with a configured default space. -/
def cfgW : CapacitiesConfig := { apiToken := "token".data, defaultSpaceId := some uuidW }

/-- A configuration without a default space. -/
def cfgN : CapacitiesConfig := { apiToken := "token".data }

/-- A reference time used by concrete instances. -/
def nowW : LocalDate := ⟨2026, 2, 19⟩

/-- A remote oracle answering every endpoint with an empty success. -/
def envW : RemoteEnv :=
  { spacesResult := .ok ⟨[]⟩
    spaceInfoResult := fun _ => .ok ⟨[]⟩
    lookupResult := fun _ _ => .ok ⟨[]⟩ }

/- ===================== claims ===================== -/

/-- C6: effective-space resolution returns the trimmed explicit value when it
is non-empty (subject to the UUID check), otherwise falls back to the
configured default; a missing candidate fails with config_error and a
present but non-UUID candidate fails with validation_error, from either
source. -/
theorem C6_resolve_space (config : CapacitiesConfig) :
    (∀ e, jsTrim e ≠ [] → isUuid (jsTrim e) = true →
       resolveSpaceId (some e) config = .ok (jsTrim e)) ∧
    (∀ e, jsTrim e ≠ [] → isUuid (jsTrim e) = false →
       resolveSpaceId (some e) config =
         .error (createValidationError (spaceIdNotUuidMsg (jsTrim e)))) ∧
    (∀ e, jsTrim e = [] → resolveSpaceId (some e) config = resolveSpaceId none config) ∧
    (config.defaultSpaceId = none →
       resolveSpaceId none config = .error (createConfigError missingSpaceIdMsg)) ∧
    (∀ d, config.defaultSpaceId = some d → d ≠ [] → isUuid d = true →
       resolveSpaceId none config = .ok d) ∧
    (∀ d, config.defaultSpaceId = some d → d ≠ [] → isUuid d = false →
       resolveSpaceId none config = .error (createValidationError (spaceIdNotUuidMsg d))) := by
  refine ⟨?_, ?_, ?_, ?_, ?_, ?_⟩
  · intro e h1 h2
    simp [resolveSpaceId, h1, h2]
  · intro e h1 h2
    exact resolveSpaceId_bad_explicit config e h1 h2
  · intro e h1
    simp [resolveSpaceId, h1]
  · intro h
    exact resolveSpaceId_none_none config h
  · intro d hd h1 h2
    simp [resolveSpaceId, hd, h1, h2]
  · intro d hd h1 h2
    simp [resolveSpaceId, hd, h1, h2]

/-- C6 witness: concrete resolutions through every branch. -/
theorem C6_resolve_space_witness :
    resolveSpaceId (some ("  ".data ++ uuidW ++ " ".data)) cfgN = .ok uuidW ∧
    resolveSpaceId none cfgN = .error (createConfigError missingSpaceIdMsg) ∧
    resolveSpaceId (some "not-a-uuid".data) cfgN =
      .error (createValidationError (spaceIdNotUuidMsg "not-a-uuid".data)) ∧
    resolveSpaceId none cfgW = .ok uuidW := by
  refine ⟨?_, ?_, ?_, ?_⟩
  · have h := (C6_resolve_space cfgN).1 ("  ".data ++ uuidW ++ " ".data)
      (by decide) (by decide)
    rw [h]
    rfl
  · exact (C6_resolve_space cfgN).2.2.2.1 rfl
  · have h := (C6_resolve_space cfgN).2.1 "not-a-uuid".data (by decide) (by decide)
    rw [h]
    rfl
  · exact (C6_resolve_space cfgW).2.2.2.2.1 uuidW rfl (by decide) (by decide)

/-- C7 (amended): a 429 response classifies as rate_limit carrying status
429, with the retry guidance chosen by JS truthiness of the header values: a
retry-after header with a non-empty value yields the seconds-based hint;
otherwise a non-empty ratelimit-reset header yields the reset-timestamp
hint; otherwise — including present-but-empty headers, which are falsy — the
generic short-delay hint. -/
theorem C7_rate_limit (response : HttpResponse) (h : response.status = 429) :
    (createHttpError response).code = .rate_limit ∧
    (createHttpError response).status = some 429 ∧
    (∀ ra, response.headers "retry-after".data = some ra → ra ≠ [] →
       (createHttpError response).message =
         statusLead 429 ++ " Rate limit exceeded.".data ++
           (" Retry after ".data ++ ra ++ " seconds.".data) ++ responseHintOf response) ∧
    (truthy (response.headers "retry-after".data) = false →
      ∀ rs, response.headers "ratelimit-reset".data = some rs → rs ≠ [] →
       (createHttpError response).message =
         statusLead 429 ++ " Rate limit exceeded.".data ++
           (" Retry when rate limit resets (".data ++ rs ++ ").".data) ++
           responseHintOf response) ∧
    (truthy (response.headers "retry-after".data) = false →
      truthy (response.headers "ratelimit-reset".data) = false →
       (createHttpError response).message =
         statusLead 429 ++ " Rate limit exceeded.".data ++
           " Retry after a short delay.".data ++ responseHintOf response) := by
  refine ⟨?_, ?_, ?_, ?_, ?_⟩
  · simp [createHttpError, h]
  · simp [createHttpError, h]
  · intro ra hra hne
    simp [createHttpError, h, hra, truthy, hne]
  · intro hra rs hrs hne
    have hrt : truthy (some rs) = true := by
      simp [truthy, hne]
    simp [createHttpError, h, hra, hrs, hrt]
  · intro hra hrs
    simp [createHttpError, h, hra, hrs]

/-- A concrete 429 response carrying `retry-after: 5`. -/
def resp429 : HttpResponse :=
  { status := 429
    headers := fun k => if k = "retry-after".data then some "5".data else none
    body := [] }

/-- C7 witness: the `retry-after: 5` response yields rate_limit guidance
mentioning the 5-second delay. -/
theorem C7_rate_limit_witness :
    (createHttpError resp429).code = .rate_limit ∧
    (createHttpError resp429).status = some 429 ∧
    (createHttpError resp429).message =
      "Capacities API request failed with status 429. Rate limit exceeded. Retry after 5 seconds.".data ∧
    strContains (createHttpError resp429).message "5 seconds".data = true := by
  have h := C7_rate_limit resp429 rfl
  have hm := h.2.2.1 "5".data (by decide) (by decide)
  have hmsg : (createHttpError resp429).message =
      "Capacities API request failed with status 429. Rate limit exceeded. Retry after 5 seconds.".data := by
    rw [hm]; rfl
  refine ⟨h.1, h.2.1, hmsg, ?_⟩
  rw [hmsg]
  decide

/-- A concrete 429 response whose retry-after header is present but empty
while ratelimit-reset carries 99. -/
def resp429empty : HttpResponse :=
  { status := 429
    headers := fun k =>
      if k = "retry-after".data then some []
      else if k = "ratelimit-reset".data then some "99".data
      else none
    body := [] }

/-- C7 counterexample: a present-but-empty retry-after header is falsy in the
source's `retryAfter ? … : reset ? …` chain, so classification falls through
to the ratelimit-reset hint — the produced text mentions no seconds-based
delay even though a retry-after header is present, contradicting the claim's
with-a-retry-after-header clause. -/
theorem C7_rate_limit_counterexample :
    resp429empty.headers "retry-after".data = some [] ∧
    (createHttpError resp429empty).message =
      "Capacities API request failed with status 429. Rate limit exceeded. Retry when rate limit resets (99).".data ∧
    strContains (createHttpError resp429empty).message "seconds".data = false := by
  have hm : (createHttpError resp429empty).message =
      "Capacities API request failed with status 429. Rate limit exceeded. Retry when rate limit resets (99).".data := by
    rfl
  refine ⟨by decide, hm, ?_⟩
  rw [hm]
  decide

/-- C9: for well-formed input, get_entity_by_id always returns the
explicit-unsupported shape (never success or error), and its structured
details echo the received entityId, structureId and spaceId (the spaceId
slot falling back to the configured default, then null, when absent). -/
theorem C9_get_entity_unsupported (config : CapacitiesConfig) (input : GetEntityByIdInput)
    (he : input.entityId ≠ []) (hs : input.structureId ≠ []) :
    getEntityByIdTool config input =
      (unsupportedResult "get_entity_by_id".data getEntityByIdUnsupportedMsg
        (.entity input.entityId input.structureId
          (match input.spaceId with
           | some s => some s
           | none => config.defaultSpaceId)
          AVAILABLE_ENDPOINTS), []) ∧
    (∀ s, input.spaceId = some s →
      ∃ p, (getEntityByIdTool config input).1.structuredContent = .unsupported p ∧
        p.supported = false ∧
        p.details = .entity input.entityId input.structureId (some s) AVAILABLE_ENDPOINTS) := by
  constructor
  · rfl
  · intro s hsp
    refine ⟨{ tool := "get_entity_by_id".data
              supported := false
              error := { code := .unsupported, message := getEntityByIdUnsupportedMsg
                         actionableMessage :=
                           "Use a supported Capacities API endpoint documented in https://api.capacities.io/docs.".data }
              details := .entity input.entityId input.structureId (some s)
                AVAILABLE_ENDPOINTS }, ?_, rfl, rfl⟩
    simp [getEntityByIdTool, unsupportedResult, createUnsupportedError, hsp]

/-- C9 witness: a concrete well-formed call echoes its exact inputs under the
unsupported shape. -/
theorem C9_get_entity_unsupported_witness :
    ∃ p, (getEntityByIdTool cfgW
        { entityId := "e1".data, structureId := "st1".data, spaceId := some uuidW }).1.structuredContent =
      .unsupported p ∧ p.supported = false ∧
      p.details = .entity "e1".data "st1".data (some uuidW) AVAILABLE_ENDPOINTS := by
  exact (C9_get_entity_unsupported cfgW
    { entityId := "e1".data, structureId := "st1".data, spaceId := some uuidW }
    (by decide) (by decide)).2 uuidW rfl

/-- C4 (amended): trimmed input case-insensitively equal to "yesterday"
yields the reference time minus one local calendar day rendered from local
components; a trimmed `YYYY-MM-DD` match whose components round-trip through
`Date.UTC` is returned unchanged (for any reference time, hence
re-normalization is idempotent on such outputs); every other input fails
with validation_error carrying one of the two messages, each naming the
offending string — only the pattern-mismatch message also names both
accepted forms. -/
theorem C4_normalize_date (now now2 : LocalDate) (input : Str) :
    (jsToLower (jsTrim input) = "yesterday".data →
       normalizeDateInput now input = .ok (toIsoLocalDate (prevDay now))) ∧
    (∀ y m d, jsTrim input = input → parseDatePattern input = some (y, m, d) →
       dateUtcRoundTrips y m d = true →
       normalizeDateInput now input = .ok input ∧ normalizeDateInput now2 input = .ok input) ∧
    (jsToLower (jsTrim input) ≠ "yesterday".data →
       (parseDatePattern (jsTrim input) = none ∨
         ∃ y m d, parseDatePattern (jsTrim input) = some (y, m, d) ∧
           dateUtcRoundTrips y m d = false) →
       ∃ e, normalizeDateInput now input = .error e ∧ e.code = .validation_error ∧
         (e.message = invalidDateMsg input ∨ e.message = invalidCalendarDateMsg input)) := by
  refine ⟨?_, ?_, ?_⟩
  · intro h
    simp [normalizeDateInput, h]
  · intro y m d htrim hparse hrt
    have hlen : input.length = 10 := parseDatePattern_length input (y, m, d) hparse
    have hny : jsToLower (jsTrim input) ≠ "yesterday".data := by
      rw [htrim]
      intro hcontra
      have hl := congrArg List.length hcontra
      simp only [jsToLower, List.length_map, hlen] at hl
      exact absurd hl (by decide)
    rw [htrim] at hny
    have hny9 : jsToLower input ≠ ['y', 'e', 's', 't', 'e', 'r', 'd', 'a', 'y'] := by
      intro hc
      apply hny
      rw [hc]
    constructor <;> simp [normalizeDateInput, htrim, hparse, hrt, hny9]
  · intro hny hbad
    rcases hbad with hnone | ⟨y, m, d, hsome, hrt⟩
    · refine ⟨createValidationError (invalidDateMsg input), ?_, rfl, Or.inl rfl⟩
      simp [normalizeDateInput, hny, hnone]
    · refine ⟨createValidationError (invalidCalendarDateMsg input), ?_, rfl, Or.inr rfl⟩
      simp [normalizeDateInput, hny, hsome, hrt]

/-- C4 counterexample: "2024-02-30" fails with validation_error as the claim
requires, but its message does not name the relative "yesterday" form, so
the failure does not name both accepted forms (the pattern-mismatch message
does, as the contrast conjunct shows). -/
theorem C4_normalize_date_counterexample :
    normalizeDateInput ⟨2026, 2, 19⟩ "2024-02-30".data =
      .error (createValidationError (invalidCalendarDateMsg "2024-02-30".data)) ∧
    strContains (invalidCalendarDateMsg "2024-02-30".data) "yesterday".data = false ∧
    strContains (invalidDateMsg "2024-02-30x".data) "yesterday".data = true := by
  refine ⟨by rfl, by decide, by decide⟩

/-- C4 witness: the relative token resolves to the prior local day
(2026-02-19 to 2026-02-18), the leap day 2024-02-29 is accepted unchanged,
and re-normalizing it at a different reference time returns it again. -/
theorem C4_normalize_date_witness :
    normalizeDateInput ⟨2026, 2, 19⟩ "yesterday".data = .ok "2026-02-18".data ∧
    normalizeDateInput ⟨2026, 2, 19⟩ "2024-02-29".data = .ok "2024-02-29".data ∧
    normalizeDateInput ⟨2030, 7, 1⟩ "2024-02-29".data = .ok "2024-02-29".data := by
  refine ⟨?_, ?_, ?_⟩
  · have h := (C4_normalize_date ⟨2026, 2, 19⟩ ⟨2026, 2, 19⟩ "yesterday".data).1 (by decide)
    rw [h]
    rfl
  · exact ((C4_normalize_date ⟨2026, 2, 19⟩ ⟨2030, 7, 1⟩ "2024-02-29".data).2.1 2024 2 29
      (by decide) (by decide) (by decide)).1
  · exact ((C4_normalize_date ⟨2026, 2, 19⟩ ⟨2030, 7, 1⟩ "2024-02-29".data).2.1 2024 2 29
      (by decide) (by decide) (by decide)).2

theorem isErrorResultWithCode_errorResult (n : Str) (e : CapacitiesError) :
    isErrorResultWithCode e.code (errorResult n e) := ⟨_, errorResult_structured n e, rfl⟩

theorem trimToUndefined_of_trim_ne (v : Str) (h : jsTrim v ≠ []) :
    trimToUndefined (some v) = some (jsTrim v) := by
  have hne : v ≠ [] := by
    intro hc
    apply h
    rw [hc]
    rfl
  simp [trimToUndefined, hne, h]

/-- C8: an update_task call with a non-empty taskId and none of title,
description, dueDate, status fails with validation_error; once normalization
succeeds the handler returns the explicit-unsupported shape, and supplying
only an explicit null description (or dueDate) with a resolvable space is
such a successful normalization. -/
theorem C8_update_requires_field (config : CapacitiesConfig) (now : LocalDate)
    (input : UpdateTaskRawInput) (ht : jsTrim input.taskId ≠ []) :
    (input.title = none → input.description = none → input.dueDate = none →
       input.status = none →
       (updateTaskTool config now input).1.structuredContent =
         .errorContent
           { tool := "update_task".data, ok := false
             error := { code := .validation_error
                        message := "Provide at least one update field: title, description, dueDate, or status.".data
                        status := none
                        actionableMessage := "Fix input values and retry.".data } }) ∧
    (∀ payload, normalizeUpdateTaskInput now config input = .ok payload →
       (updateTaskTool config now input).1.structuredContent =
         .unsupported
           { tool := "update_task".data, supported := false
             error := { code := .unsupported, message := updateTaskUnsupportedMsg
                        actionableMessage :=
                          "Use a supported Capacities API endpoint documented in https://api.capacities.io/docs.".data }
             details := .updateTask payload AVAILABLE_ENDPOINTS }) ∧
    (∀ sid, input.title = none → input.description = some none → input.dueDate = none →
       input.status = none → resolveSpaceId input.spaceId config = .ok sid →
       normalizeUpdateTaskInput now config input =
         .ok { taskId := jsTrim input.taskId, spaceId := sid, description := some none }) ∧
    (∀ sid, input.title = none → input.description = none → input.dueDate = some none →
       input.status = none → resolveSpaceId input.spaceId config = .ok sid →
       normalizeUpdateTaskInput now config input =
         .ok { taskId := jsTrim input.taskId, spaceId := sid, dueDate := some none }) := by
  have htrimU : trimToUndefined (some input.taskId) = some (jsTrim input.taskId) :=
    trimToUndefined_of_trim_ne input.taskId ht
  refine ⟨?_, ?_, ?_, ?_⟩
  · intro h1 h2 h3 h4
    have hnorm : normalizeUpdateTaskInput now config input =
        .error (createValidationError
          "Provide at least one update field: title, description, dueDate, or status.".data) := by
      simp [normalizeUpdateTaskInput, htrimU, h1, h2, h3, h4,
        normalizeNullableText, normalizeNullableDate, Bind.bind, Except.bind]
    simp [updateTaskTool, hnorm, errorResult_structured, createValidationError,
      normalizeCapacitiesError]
  · intro payload hp
    simp [updateTaskTool, hp, unsupportedResult, createUnsupportedError]
  · intro sid h1 h2 h3 h4 hres
    simp [normalizeUpdateTaskInput, htrimU, h1, h2, h3, h4, hres,
      normalizeNullableText, normalizeNullableDate, Bind.bind, Except.bind]
  · intro sid h1 h2 h3 h4 hres
    simp [normalizeUpdateTaskInput, htrimU, h1, h2, h3, h4, hres,
      normalizeNullableText, normalizeNullableDate, Bind.bind, Except.bind]

/-- C8 witness: `update_task({taskId:"t1"})` with no other fields fails
validation_error; adding only `description: null` yields the
explicit-unsupported shape. -/
theorem C8_update_requires_field_witness :
    (updateTaskTool cfgW nowW { taskId := "t1".data }).1.structuredContent =
      .errorContent
        { tool := "update_task".data, ok := false
          error := { code := .validation_error
                     message := "Provide at least one update field: title, description, dueDate, or status.".data
                     status := none
                     actionableMessage := "Fix input values and retry.".data } } ∧
    (updateTaskTool cfgW nowW
        { taskId := "t1".data, description := some none }).1.structuredContent =
      .unsupported
        { tool := "update_task".data, supported := false
          error := { code := .unsupported, message := updateTaskUnsupportedMsg
                     actionableMessage :=
                       "Use a supported Capacities API endpoint documented in https://api.capacities.io/docs.".data }
          details := .updateTask
            { taskId := "t1".data, spaceId := uuidW, description := some none }
            AVAILABLE_ENDPOINTS } := by
  constructor
  · exact (C8_update_requires_field cfgW nowW { taskId := "t1".data } (by decide)).1
      rfl rfl rfl rfl
  · have h := C8_update_requires_field cfgW nowW
      { taskId := "t1".data, description := some none } (by decide)
    have hnorm := h.2.2.1 uuidW rfl rfl rfl rfl (by rfl)
    have hshape := h.2.1 _ hnorm
    rw [hshape]
    rfl

theorem errorResult_not_unsupported (n : Str) (e : CapacitiesError) :
    ¬ isUnsupportedResult (errorResult n e) := by
  rintro ⟨p, hp⟩
  rw [errorResult_structured] at hp
  exact StructuredContent.noConfusion hp

theorem normalizeCreateTaskInput_resolve_error (config : CapacitiesConfig) (now : LocalDate)
    (input : CreateTaskRawInput) (e : CapacitiesError) (htitle : jsTrim input.title ≠ [])
    (hres : resolveSpaceId input.spaceId config = .error e) :
    normalizeCreateTaskInput now config input = .error e := by
  have h := trimToUndefined_of_trim_ne input.title htitle
  simp [normalizeCreateTaskInput, h, hres, Bind.bind, Except.bind]

theorem normalizeCompleteTaskInput_resolve_error (config : CapacitiesConfig)
    (input : CompleteTaskRawInput) (e : CapacitiesError) (ht : jsTrim input.taskId ≠ [])
    (hres : resolveSpaceId input.spaceId config = .error e) :
    normalizeCompleteTaskInput config input = .error e := by
  have h := trimToUndefined_of_trim_ne input.taskId ht
  simp [normalizeCompleteTaskInput, h, hres, Bind.bind, Except.bind]

theorem normalizeUpdateTaskInput_resolve_error (config : CapacitiesConfig) (now : LocalDate)
    (input : UpdateTaskRawInput) (description dueDate : Option (Option Str))
    (e : CapacitiesError) (ht : jsTrim input.taskId ≠ [])
    (hdesc : normalizeNullableText input.description "description".data = .ok description)
    (hdd : normalizeNullableDate now input.dueDate = .ok dueDate)
    (htv : input.title = none ∨ trimToUndefined input.title ≠ none)
    (hone : ¬(trimToUndefined input.title = none ∧ description = none ∧ dueDate = none ∧
        input.status = none))
    (hres : resolveSpaceId input.spaceId config = .error e) :
    normalizeUpdateTaskInput now config input = .error e := by
  have htrimU := trimToUndefined_of_trim_ne input.taskId ht
  cases hti : input.title with
  | none =>
    rw [hti] at hone
    simp only [trimToUndefined] at hone
    simp [normalizeUpdateTaskInput, htrimU, hti, hdesc, hdd, hone, hres,
      Bind.bind, Except.bind]
  | some t =>
    have htne : trimToUndefined (some t) ≠ none := by
      rcases htv with h | h
      · rw [hti] at h
        exact Option.noConfusion h
      · rw [hti] at h
        exact h
    rcases hvt : trimToUndefined (some t) with _ | tv
    · exact absurd hvt htne
    · simp [normalizeUpdateTaskInput, htrimU, hti, hvt, hdesc, hdd, hres,
        Bind.bind, Except.bind]

/-- C10: the always-unsupported mutation tools still require a resolvable
space id before declaring the capability unsupported: with otherwise-valid
input, a missing spaceId with no configured default yields the error shape
with config_error, and a non-UUID candidate yields validation_error — never
the explicit-unsupported shape. -/
theorem C10_mutations_require_space (config : CapacitiesConfig) (now : LocalDate) :
    (∀ input : CreateTaskRawInput, jsTrim input.title ≠ [] →
      (input.spaceId = none → config.defaultSpaceId = none →
         isErrorResultWithCode .config_error (createTaskTool config now input).1 ∧
           ¬ isUnsupportedResult (createTaskTool config now input).1) ∧
      (∀ s, input.spaceId = some s → jsTrim s ≠ [] → isUuid (jsTrim s) = false →
         isErrorResultWithCode .validation_error (createTaskTool config now input).1 ∧
           ¬ isUnsupportedResult (createTaskTool config now input).1)) ∧
    (∀ (input : UpdateTaskRawInput) (description dueDate : Option (Option Str)),
      jsTrim input.taskId ≠ [] →
      normalizeNullableText input.description "description".data = .ok description →
      normalizeNullableDate now input.dueDate = .ok dueDate →
      (input.title = none ∨ trimToUndefined input.title ≠ none) →
      ¬(trimToUndefined input.title = none ∧ description = none ∧ dueDate = none ∧
          input.status = none) →
      (input.spaceId = none → config.defaultSpaceId = none →
         isErrorResultWithCode .config_error (updateTaskTool config now input).1 ∧
           ¬ isUnsupportedResult (updateTaskTool config now input).1) ∧
      (∀ s, input.spaceId = some s → jsTrim s ≠ [] → isUuid (jsTrim s) = false →
         isErrorResultWithCode .validation_error (updateTaskTool config now input).1 ∧
           ¬ isUnsupportedResult (updateTaskTool config now input).1)) ∧
    (∀ input : CompleteTaskRawInput, jsTrim input.taskId ≠ [] →
      (input.spaceId = none → config.defaultSpaceId = none →
         isErrorResultWithCode .config_error (completeTaskTool config input).1 ∧
           ¬ isUnsupportedResult (completeTaskTool config input).1) ∧
      (∀ s, input.spaceId = some s → jsTrim s ≠ [] → isUuid (jsTrim s) = false →
         isErrorResultWithCode .validation_error (completeTaskTool config input).1 ∧
           ¬ isUnsupportedResult (completeTaskTool config input).1)) := by
  refine ⟨?_, ?_, ?_⟩
  · intro input htitle
    constructor
    · intro hs hd
      have hres : resolveSpaceId input.spaceId config =
          .error (createConfigError missingSpaceIdMsg) := by
        rw [hs]
        exact resolveSpaceId_none_none config hd
      have hnorm := normalizeCreateTaskInput_resolve_error config now input _ htitle hres
      have htool : (createTaskTool config now input).1 =
          errorResult "create_task".data (createConfigError missingSpaceIdMsg) := by
        simp [createTaskTool, hnorm]
      rw [htool]
      exact ⟨isErrorResultWithCode_errorResult _ _, errorResult_not_unsupported _ _⟩
    · intro s hs h1 h2
      have hres : resolveSpaceId input.spaceId config =
          .error (createValidationError (spaceIdNotUuidMsg (jsTrim s))) := by
        rw [hs]
        exact resolveSpaceId_bad_explicit config s h1 h2
      have hnorm := normalizeCreateTaskInput_resolve_error config now input _ htitle hres
      have htool : (createTaskTool config now input).1 =
          errorResult "create_task".data
            (createValidationError (spaceIdNotUuidMsg (jsTrim s))) := by
        simp [createTaskTool, hnorm]
      rw [htool]
      exact ⟨isErrorResultWithCode_errorResult _ _, errorResult_not_unsupported _ _⟩
  · intro input description dueDate ht hdesc hdd htv hone
    constructor
    · intro hs hd
      have hres : resolveSpaceId input.spaceId config =
          .error (createConfigError missingSpaceIdMsg) := by
        rw [hs]
        exact resolveSpaceId_none_none config hd
      have hnorm := normalizeUpdateTaskInput_resolve_error config now input description
        dueDate _ ht hdesc hdd htv hone hres
      have htool : (updateTaskTool config now input).1 =
          errorResult "update_task".data (createConfigError missingSpaceIdMsg) := by
        simp [updateTaskTool, hnorm]
      rw [htool]
      exact ⟨isErrorResultWithCode_errorResult _ _, errorResult_not_unsupported _ _⟩
    · intro s hs h1 h2
      have hres : resolveSpaceId input.spaceId config =
          .error (createValidationError (spaceIdNotUuidMsg (jsTrim s))) := by
        rw [hs]
        exact resolveSpaceId_bad_explicit config s h1 h2
      have hnorm := normalizeUpdateTaskInput_resolve_error config now input description
        dueDate _ ht hdesc hdd htv hone hres
      have htool : (updateTaskTool config now input).1 =
          errorResult "update_task".data
            (createValidationError (spaceIdNotUuidMsg (jsTrim s))) := by
        simp [updateTaskTool, hnorm]
      rw [htool]
      exact ⟨isErrorResultWithCode_errorResult _ _, errorResult_not_unsupported _ _⟩
  · intro input ht
    constructor
    · intro hs hd
      have hres : resolveSpaceId input.spaceId config =
          .error (createConfigError missingSpaceIdMsg) := by
        rw [hs]
        exact resolveSpaceId_none_none config hd
      have hnorm := normalizeCompleteTaskInput_resolve_error config input _ ht hres
      have htool : (completeTaskTool config input).1 =
          errorResult "complete_task".data (createConfigError missingSpaceIdMsg) := by
        simp [completeTaskTool, hnorm]
      rw [htool]
      exact ⟨isErrorResultWithCode_errorResult _ _, errorResult_not_unsupported _ _⟩
    · intro s hs h1 h2
      have hres : resolveSpaceId input.spaceId config =
          .error (createValidationError (spaceIdNotUuidMsg (jsTrim s))) := by
        rw [hs]
        exact resolveSpaceId_bad_explicit config s h1 h2
      have hnorm := normalizeCompleteTaskInput_resolve_error config input _ ht hres
      have htool : (completeTaskTool config input).1 =
          errorResult "complete_task".data
            (createValidationError (spaceIdNotUuidMsg (jsTrim s))) := by
        simp [completeTaskTool, hnorm]
      rw [htool]
      exact ⟨isErrorResultWithCode_errorResult _ _, errorResult_not_unsupported _ _⟩

/-- C10 witness: concrete otherwise-valid mutation calls fail with
config_error when no space is available and with validation_error for a
non-UUID space id, never returning the unsupported shape. -/
theorem C10_mutations_require_space_witness :
    isErrorResultWithCode .config_error
      (createTaskTool cfgN nowW { title := "x".data }).1 ∧
    isErrorResultWithCode .validation_error
      (createTaskTool cfgN nowW { title := "x".data, spaceId := some "abc".data }).1 ∧
    isErrorResultWithCode .config_error
      (updateTaskTool cfgN nowW { taskId := "t1".data, status := some .completed }).1 ∧
    isErrorResultWithCode .config_error
      (completeTaskTool cfgN { taskId := "t1".data }).1 ∧
    ¬ isUnsupportedResult (completeTaskTool cfgN { taskId := "t1".data }).1 := by
  refine ⟨?_, ?_, ?_, ?_, ?_⟩
  · exact (((C10_mutations_require_space cfgN nowW).1 { title := "x".data }
      (by decide)).1 rfl rfl).1
  · exact (((C10_mutations_require_space cfgN nowW).1
      { title := "x".data, spaceId := some "abc".data } (by decide)).2 "abc".data rfl
      (by decide) (by decide)).1
  · exact (((C10_mutations_require_space cfgN nowW).2.1
      { taskId := "t1".data, status := some .completed } none none (by decide) rfl rfl
      (Or.inl rfl) (by simp)).1 rfl rfl).1
  · exact (((C10_mutations_require_space cfgN nowW).2.2
      { taskId := "t1".data } (by decide)).1 rfl rfl).1
  · exact (((C10_mutations_require_space cfgN nowW).2.2
      { taskId := "t1".data } (by decide)).1 rfl rfl).2

theorem normalizeSearchEntitiesFilters_validation (now : LocalDate)
    (input : SearchEntitiesInput) (date dateFrom dateTo : Option Str) (e : CapacitiesError)
    (hd : normOptDateField now input.date = .ok date)
    (hf : normOptDateField now input.dateFrom = .ok dateFrom)
    (hto : normOptDateField now input.dateTo = .ok dateTo)
    (hv : validateDateInputs date dateFrom dateTo = .error e) :
    normalizeSearchEntitiesFilters now input = .error e := by
  simp [normalizeSearchEntitiesFilters, hd, hf, hto, hv, Bind.bind, Except.bind]

theorem normalizeListTasksFilters_validation (now : LocalDate)
    (input : ListTasksInput) (date dateFrom dateTo : Option Str) (e : CapacitiesError)
    (hd : normOptDateField now input.date = .ok date)
    (hf : normOptDateField now input.dateFrom = .ok dateFrom)
    (hto : normOptDateField now input.dateTo = .ok dateTo)
    (hv : validateDateInputs date dateFrom dateTo = .error e) :
    normalizeListTasksFilters now input = .error e := by
  simp [normalizeListTasksFilters, hd, hf, hto, hv, Bind.bind, Except.bind]

/-- C5: when after date normalization a single date coexists with either end
of a range, or exactly one range end is present, or a paired range is
inverted under the lexicographic string order, search_entities and
list_tasks fail with validation_error and issue zero remote calls. -/
theorem C5_date_validation (env : RemoteEnv) (config : CapacitiesConfig) (now : LocalDate) :
    (∀ (input : SearchEntitiesInput) (date dateFrom dateTo : Option Str),
       normOptDateField now input.date = .ok date →
       normOptDateField now input.dateFrom = .ok dateFrom →
       normOptDateField now input.dateTo = .ok dateTo →
       (truthy date && (truthy dateFrom || truthy dateTo) ||
         ((truthy dateFrom && !truthy dateTo) || (!truthy dateFrom && truthy dateTo)) ||
         (truthy dateFrom && truthy dateTo &&
           strGt (dateFrom.getD []) (dateTo.getD []))) = true →
       isErrorResultWithCode .validation_error (searchEntitiesTool env config now input).1 ∧
         (searchEntitiesTool env config now input).2 = []) ∧
    (∀ (input : ListTasksInput) (date dateFrom dateTo : Option Str),
       normOptDateField now input.date = .ok date →
       normOptDateField now input.dateFrom = .ok dateFrom →
       normOptDateField now input.dateTo = .ok dateTo →
       (truthy date && (truthy dateFrom || truthy dateTo) ||
         ((truthy dateFrom && !truthy dateTo) || (!truthy dateFrom && truthy dateTo)) ||
         (truthy dateFrom && truthy dateTo &&
           strGt (dateFrom.getD []) (dateTo.getD []))) = true →
       isErrorResultWithCode .validation_error (listTasksTool now input).1 ∧
         (listTasksTool now input).2 = []) := by
  constructor
  · intro input date dateFrom dateTo hd hf hto hbad
    obtain ⟨e, hv, hcode⟩ := validateDateInputs_fails date dateFrom dateTo hbad
    have hnorm := normalizeSearchEntitiesFilters_validation now input date dateFrom dateTo e
      hd hf hto hv
    have htool : searchEntitiesTool env config now input =
        (errorResult "search_entities".data e, []) := by
      simp [searchEntitiesTool, hnorm]
    rw [htool]
    exact ⟨⟨_, errorResult_structured _ _, hcode⟩, rfl⟩
  · intro input date dateFrom dateTo hd hf hto hbad
    obtain ⟨e, hv, hcode⟩ := validateDateInputs_fails date dateFrom dateTo hbad
    have hnorm := normalizeListTasksFilters_validation now input date dateFrom dateTo e
      hd hf hto hv
    have htool : listTasksTool now input = (errorResult "list_tasks".data e, []) := by
      simp [listTasksTool, hnorm]
    rw [htool]
    exact ⟨⟨_, errorResult_structured _ _, hcode⟩, rfl⟩

/-- C5 witness: an inverted range fails search_entities, a one-sided range
fails it too, and a date combined with a range fails list_tasks — all with
validation_error and zero remote calls. -/
theorem C5_date_validation_witness :
    (isErrorResultWithCode .validation_error (searchEntitiesTool envW cfgW nowW
        { dateFrom := some "2024-01-02".data, dateTo := some "2024-01-01".data }).1 ∧
      (searchEntitiesTool envW cfgW nowW
        { dateFrom := some "2024-01-02".data, dateTo := some "2024-01-01".data }).2 = []) ∧
    (isErrorResultWithCode .validation_error (searchEntitiesTool envW cfgW nowW
        { dateFrom := some "2024-01-02".data }).1 ∧
      (searchEntitiesTool envW cfgW nowW { dateFrom := some "2024-01-02".data }).2 = []) ∧
    (isErrorResultWithCode .validation_error (listTasksTool nowW
        { date := some "2024-01-01".data, dateFrom := some "2024-01-02".data,
          dateTo := some "2024-01-03".data }).1 ∧
      (listTasksTool nowW
        { date := some "2024-01-01".data, dateFrom := some "2024-01-02".data,
          dateTo := some "2024-01-03".data }).2 = []) := by
  refine ⟨?_, ?_, ?_⟩
  · exact (C5_date_validation envW cfgW nowW).1
      { dateFrom := some "2024-01-02".data, dateTo := some "2024-01-01".data }
      none (some "2024-01-02".data) (some "2024-01-01".data) rfl rfl rfl (by decide)
  · exact (C5_date_validation envW cfgW nowW).1
      { dateFrom := some "2024-01-02".data }
      none (some "2024-01-02".data) none rfl rfl rfl (by decide)
  · exact (C5_date_validation envW cfgW nowW).2
      { date := some "2024-01-01".data, dateFrom := some "2024-01-02".data,
        dateTo := some "2024-01-03".data }
      (some "2024-01-01".data) (some "2024-01-02".data) (some "2024-01-03".data)
      rfl rfl rfl (by decide)

/-- C2 (amended): a search_entities call whose text is absent or trims to
empty performs zero remote calls unconditionally; and provided the date
filters pass normalization and mutual-exclusion validation and the space id
resolves, it returns the explicit-unsupported shape immediately, naming via
the constant supported map which filter dimensions are and are not honored.
(When those earlier validations fail the handler returns the error shape
instead — still with zero remote calls.) -/
theorem C2_search_no_text (env : RemoteEnv) (config : CapacitiesConfig) (now : LocalDate)
    (input : SearchEntitiesInput) (h : trimToUndefined input.text = none) :
    (searchEntitiesTool env config now input).2 = [] ∧
    (∀ filters, normalizeSearchEntitiesFilters now input = .ok filters →
      ∀ sid, resolveSpaceId filters.spaceId config = .ok sid →
      (searchEntitiesTool env config now input).1 =
        unsupportedResult "search_entities".data searchNoTextMsg
          (.searchFilters filters searchSupportedMap)) := by
  constructor
  · rcases hn : normalizeSearchEntitiesFilters now input with e | filters
    · simp [searchEntitiesTool, hn]
    · have htext : filters.text = none := by
        have hf := (normalizeSearchEntitiesFilters_fields now input filters hn).2.1
        rw [hf, h]
      rcases hr : resolveSpaceId filters.spaceId config with e | sid
      · simp [searchEntitiesTool, hn, hr]
      · simp [searchEntitiesTool, hn, hr, htext]
  · intro filters hn sid hr
    have htext : filters.text = none := by
      have hf := (normalizeSearchEntitiesFilters_fields now input filters hn).2.1
      rw [hf, h]
    simp [searchEntitiesTool, hn, hr, htext]

/-- C2 counterexample: a no-text call carrying the invalid date "2024-02-30"
returns the error shape (validation_error), not the explicit-unsupported
shape the claim promises for every no-text call regardless of the other
filters. -/
theorem C2_search_no_text_counterexample :
    trimToUndefined (SearchEntitiesInput.text { date := some "2024-02-30".data }) = none ∧
    (searchEntitiesTool envW cfgW nowW
        { date := some "2024-02-30".data }).1.structuredContent =
      .errorContent
        { tool := "search_entities".data, ok := false
          error := { code := .validation_error
                     message := invalidCalendarDateMsg "2024-02-30".data
                     status := none
                     actionableMessage := "Fix input values and retry.".data } } ∧
    ¬ isUnsupportedResult
        (searchEntitiesTool envW cfgW nowW { date := some "2024-02-30".data }).1 := by
  have heq : (searchEntitiesTool envW cfgW nowW
      { date := some "2024-02-30".data }).1.structuredContent =
      .errorContent
        { tool := "search_entities".data, ok := false
          error := { code := .validation_error
                     message := invalidCalendarDateMsg "2024-02-30".data
                     status := none
                     actionableMessage := "Fix input values and retry.".data } } := by rfl
  refine ⟨rfl, heq, ?_⟩
  rintro ⟨p, hp⟩
  rw [heq] at hp
  exact StructuredContent.noConfusion hp

/-- C2 witness: `search_entities({date:"2024-01-01"})` with no text and a
configured default space returns the explicit-unsupported shape naming the
supported dimensions, with zero remote calls. -/
theorem C2_search_no_text_witness :
    (searchEntitiesTool envW cfgW nowW { date := some "2024-01-01".data }).2 = [] ∧
    (searchEntitiesTool envW cfgW nowW { date := some "2024-01-01".data }).1 =
      unsupportedResult "search_entities".data searchNoTextMsg
        (.searchFilters
          { spaceId := none, text := none, type := none, date := some "2024-01-01".data
            dateFrom := none, dateTo := none, limit := 20 }
          searchSupportedMap) := by
  have h := C2_search_no_text envW cfgW nowW { date := some "2024-01-01".data } rfl
  exact ⟨h.1, h.2
    { spaceId := none, text := none, type := none, date := some "2024-01-01".data
      dateFrom := none, dateTo := none, limit := 20 }
    (by rfl) uuidW (by rfl)⟩

theorem resolveStructureIdsByType_eq (typeFilter : Str)
    (structures : List CapacitiesStructureInfo) :
    resolveStructureIdsByType typeFilter structures =
      (structures.filter (fun st =>
        decide (jsToLower st.title = jsToLower typeFilter ∨
          jsToLower st.id = jsToLower typeFilter ∨
          st.pluralName.map jsToLower = some (jsToLower typeFilter)))).map
        (fun st => st.id) := by
  have aux : ∀ (l : List CapacitiesStructureInfo) (acc : List Str),
      l.foldl (fun structureIds st =>
        if jsToLower st.title = jsToLower typeFilter ∨
            jsToLower st.id = jsToLower typeFilter ∨
            st.pluralName.map jsToLower = some (jsToLower typeFilter)
        then structureIds ++ [st.id] else structureIds) acc =
      acc ++ (l.filter (fun st =>
        decide (jsToLower st.title = jsToLower typeFilter ∨
          jsToLower st.id = jsToLower typeFilter ∨
          st.pluralName.map jsToLower = some (jsToLower typeFilter)))).map
        (fun st => st.id) := by
    intro l
    induction l with
    | nil => intro acc; simp
    | cons st rest ih =>
      intro acc
      rw [List.foldl_cons, ih, List.filter_cons]
      by_cases hc : (jsToLower st.title = jsToLower typeFilter ∨
          jsToLower st.id = jsToLower typeFilter ∨
          st.pluralName.map jsToLower = some (jsToLower typeFilter))
      · rw [if_pos hc, if_pos (by simpa using hc), List.map_cons, List.append_assoc]
        rfl
      · rw [if_neg hc, if_neg (by simpa using hc)]
  simpa [resolveStructureIdsByType] using aux structures []

/-- C3 (amended): the allowed-structure-id set is computed by
case-insensitive equality of the type string against each structure's id,
title or optional pluralName; with a non-empty set a lookup result is kept
iff its structureId is a member, with an empty set iff its structureId
equals the raw type string case-insensitively; and the handler includes the
"No results matched type filter" note exactly when the type-filtered result
list is empty (not when zero structures matched). -/
theorem C3_type_filter (typeFilter : Str) :
    (∀ (structures : List CapacitiesStructureInfo) (sid : Str),
       sid ∈ resolveStructureIdsByType typeFilter structures ↔
         ∃ st ∈ structures, st.id = sid ∧
           (jsToLower st.title = jsToLower typeFilter ∨
             jsToLower st.id = jsToLower typeFilter ∨
             st.pluralName.map jsToLower = some (jsToLower typeFilter))) ∧
    (∀ (structures : List CapacitiesStructureInfo) (r : CapacitiesLookupResult),
       (resolveStructureIdsByType typeFilter structures ≠ [] →
         (matchesTypeFilter r typeFilter (resolveStructureIdsByType typeFilter structures) =
             true ↔
           r.structureId ∈ resolveStructureIdsByType typeFilter structures)) ∧
       (resolveStructureIdsByType typeFilter structures = [] →
         (matchesTypeFilter r typeFilter (resolveStructureIdsByType typeFilter structures) =
             true ↔
           jsToLower r.structureId = jsToLower typeFilter))) ∧
    (∀ env config now input filters sid text lookupResponse lookupCalls spaceInfoResponse
        infoCalls,
       normalizeSearchEntitiesFilters now input = .ok filters →
       resolveSpaceId filters.spaceId config = .ok sid →
       filters.text = some text →
       filters.type = some typeFilter →
       filters.date = none → filters.dateFrom = none → filters.dateTo = none →
       clientLookup env config text (some sid) = (.ok lookupResponse, lookupCalls) →
       clientGetSpaceInfo env config (some sid) = (.ok spaceInfoResponse, infoCalls) →
       notesOf (searchEntitiesTool env config now input).1 =
         some (if lookupResponse.results.filter
                 (fun r => matchesTypeFilter r typeFilter
                   (resolveStructureIdsByType typeFilter spaceInfoResponse.structures)) = []
               then [noTypeMatchesNote typeFilter] else [])) := by
  refine ⟨?_, ?_, ?_⟩
  · intro structures sid
    rw [resolveStructureIdsByType_eq]
    simp only [List.mem_map, List.mem_filter, decide_eq_true_eq]
    constructor
    · rintro ⟨st, ⟨hmem, hcond⟩, hid⟩
      exact ⟨st, hmem, hid, hcond⟩
    · rintro ⟨st, hmem, hid, hcond⟩
      exact ⟨st, ⟨hmem, hcond⟩, hid⟩
  · intro structures r
    constructor
    · intro h
      simp [matchesTypeFilter, h]
    · intro h
      simp [matchesTypeFilter, h]
  · intro env config now input filters sid text lookupResponse lookupCalls spaceInfoResponse
      infoCalls hnorm hres htext htype hdate hfrom hto hlookup hinfo
    simp [searchEntitiesTool, hnorm, hres, htext, htype, hdate, hfrom, hto, hlookup, hinfo,
      searchSuccessResult, notesOf, truthy]

/-- A remote oracle whose lookup returns one result with structure id "FOO"
against a space with no structure metadata. -/
def envFoo : RemoteEnv :=
  { spacesResult := .ok ⟨[]⟩
    spaceInfoResult := fun _ => .ok ⟨[]⟩
    lookupResult := fun _ _ => .ok ⟨[⟨"e1".data, "FOO".data, "t1".data⟩]⟩ }

/-- C3 counterexample: with type filter "foo" and zero matching structures,
the result with structureId "FOO" is kept by the raw case-insensitive
fallback, and no note is recorded — though the claim requires a
zero-structures-matched note whenever no structure matched the type. -/
theorem C3_type_filter_counterexample :
    resolveStructureIdsByType "foo".data [] = [] ∧
    resultsOf (searchEntitiesTool envFoo cfgW nowW
        { text := some "x".data, type := some "foo".data }).1 =
      some [⟨"e1".data, "FOO".data, "t1".data⟩] ∧
    notesOf (searchEntitiesTool envFoo cfgW nowW
        { text := some "x".data, type := some "foo".data }).1 = some [] := by
  exact ⟨rfl, rfl, rfl⟩

/-- A remote oracle whose lookup result is filtered out by the structure
metadata of the space. -/
def envBar : RemoteEnv :=
  { spacesResult := .ok ⟨[]⟩
    spaceInfoResult := fun _ => .ok ⟨[⟨"s1".data, "Foo".data, none⟩]⟩
    lookupResult := fun _ _ => .ok ⟨[⟨"e1".data, "bar".data, "t".data⟩]⟩ }

/-- C3 witness: a structure whose title matches "foo" case-insensitively
contributes its id to the allowed set, and when the allowed set filters out
every lookup result the handler records the no-matches note. -/
theorem C3_type_filter_witness :
    ("s1".data ∈ resolveStructureIdsByType "foo".data
      [{ id := "s1".data, title := "Foo".data }]) ∧
    notesOf (searchEntitiesTool envBar cfgW nowW
        { text := some "x".data, type := some "foo".data }).1 =
      some [noTypeMatchesNote "foo".data] := by
  constructor
  · exact ((C3_type_filter "foo".data).1 [{ id := "s1".data, title := "Foo".data }]
      "s1".data).2
      ⟨{ id := "s1".data, title := "Foo".data }, by simp, rfl, by left; decide⟩
  · have h := (C3_type_filter "foo".data).2.2 envBar cfgW nowW
      { text := some "x".data, type := some "foo".data }
      { spaceId := none, text := some "x".data, type := some "foo".data, date := none
        dateFrom := none, dateTo := none, limit := 20 }
      uuidW "x".data ⟨[⟨"e1".data, "bar".data, "t".data⟩]⟩ [.lookup "x".data uuidW]
      ⟨[⟨"s1".data, "Foo".data, none⟩]⟩ [.spaceInfo uuidW]
      (by rfl) (by rfl) rfl rfl rfl rfl rfl (by rfl) (by rfl)
    rw [h]
    rfl

theorem wf_getSpaceInfoTool (env : RemoteEnv) (config : CapacitiesConfig)
    (spaceId : Option Str) : wellFormedResult (getSpaceInfoTool env config spaceId).1 := by
  unfold getSpaceInfoTool
  split
  · exact wf_errorResult _ _
  · dsimp only
    split
    · exact wf_spaceInfoSuccessResult _ _ _
    · exact wf_errorResult _ _
    · exact wf_errorResult _ _

theorem wf_searchEntitiesTool (env : RemoteEnv) (config : CapacitiesConfig) (now : LocalDate)
    (input : SearchEntitiesInput) :
    wellFormedResult (searchEntitiesTool env config now input).1 := by
  unfold searchEntitiesTool
  split
  · exact wf_errorResult _ _
  · split
    · exact wf_errorResult _ _
    · split
      · exact wf_unsupportedResult _ _ _
      · split
        · exact wf_errorResult _ _
        · split
          · split
            · exact wf_errorResult _ _
            · dsimp only
              exact wf_searchSuccessResult _ _ _
          · dsimp only
            exact wf_searchSuccessResult _ _ _

theorem wf_getEntityByIdTool (config : CapacitiesConfig) (input : GetEntityByIdInput) :
    wellFormedResult (getEntityByIdTool config input).1 :=
  wf_unsupportedResult _ _ _

theorem wf_listTasksTool (now : LocalDate) (input : ListTasksInput) :
    wellFormedResult (listTasksTool now input).1 := by
  unfold listTasksTool
  split
  · exact wf_errorResult _ _
  · exact wf_unsupportedResult _ _ _

theorem wf_createTaskTool (config : CapacitiesConfig) (now : LocalDate)
    (input : CreateTaskRawInput) : wellFormedResult (createTaskTool config now input).1 := by
  unfold createTaskTool
  split
  · exact wf_errorResult _ _
  · exact wf_unsupportedResult _ _ _

theorem wf_updateTaskTool (config : CapacitiesConfig) (now : LocalDate)
    (input : UpdateTaskRawInput) : wellFormedResult (updateTaskTool config now input).1 := by
  unfold updateTaskTool
  split
  · exact wf_errorResult _ _
  · exact wf_unsupportedResult _ _ _

theorem wf_completeTaskTool (config : CapacitiesConfig) (input : CompleteTaskRawInput) :
    wellFormedResult (completeTaskTool config input).1 := by
  unfold completeTaskTool
  split
  · exact wf_errorResult _ _
  · exact wf_unsupportedResult _ _ _

/-- C1: every invocation of every registered tool returns a result whose
structured payload populates exactly one of the three shapes (success,
explicit-unsupported with `supported = false`, or error with `ok = false`),
whose `isError` flag is set exactly on the error shape, and which is always
paired with a non-empty rendered text summary. -/
theorem C1_result_shapes (env : RemoteEnv) (config : CapacitiesConfig) (now : LocalDate) :
    (∀ spaceId, wellFormedResult (getSpaceInfoTool env config spaceId).1) ∧
    (∀ input, wellFormedResult (searchEntitiesTool env config now input).1) ∧
    (∀ input, wellFormedResult (getEntityByIdTool config input).1) ∧
    (∀ input, wellFormedResult (listTasksTool now input).1) ∧
    (∀ input, wellFormedResult (createTaskTool config now input).1) ∧
    (∀ input, wellFormedResult (updateTaskTool config now input).1) ∧
    (∀ input, wellFormedResult (completeTaskTool config input).1) :=
  ⟨fun spaceId => wf_getSpaceInfoTool env config spaceId,
   fun input => wf_searchEntitiesTool env config now input,
   fun input => wf_getEntityByIdTool config input,
   fun input => wf_listTasksTool now input,
   fun input => wf_createTaskTool config now input,
   fun input => wf_updateTaskTool config now input,
   fun input => wf_completeTaskTool config input⟩

end Capacities
